import Mathlib

/-!
Verification development for the go-rtq library, a programmable HTTP
transport double.  The repository ships two variants of the engine:

* package `rtq` (file rtq.go): a `MockTransport` holding a flat list of
  queues; the origin is just the first match function of every queue; the
  audit log (`requestLogs`) records every matched and unmatched intercept.
* package `rtqueue` (file rtqueue.go): a `RoundTripQueues` transport holding
  a map from origin to queue lists; only unmatched requests are recorded.

The embedding below translates both variants.  Go values are modelled as
plain data; in-place mutation through pointers becomes explicit state
passing; a Go `error` return is the `Failure.goError` constructor and a Go
`panic` is the `Failure.goPanic` constructor of an `Except` result.  The
`sync.Mutex` in `MockTransport` serialises `dequeue` calls, so a concurrent
execution is modelled as a sequence of `dequeue` steps in an arbitrary
arrival order.
-/

/-- Outcome of a Go call that fails: either an `error` value returned to the
caller, or a `panic` that unwinds the goroutine. -/
inductive Failure where
  | goError (msg : String)
  | goPanic (msg : String)
  deriving DecidableEq, Repr

instance {ε α : Type} [DecidableEq ε] [DecidableEq α] : DecidableEq (Except ε α) :=
  fun x y =>
    match x, y with
    | .error a, .error b =>
      if h : a = b then .isTrue (by rw [h]) else .isFalse (by simp [h])
    | .ok a, .ok b =>
      if h : a = b then .isTrue (by rw [h]) else .isFalse (by simp [h])
    | .error _, .ok _ => .isFalse (by simp)
    | .ok _, .error _ => .isFalse (by simp)

/-- Model of an `io.Reader` holding a request or response body: reading it to
the end either yields its full contents or fails with a read error. -/
structure Reader where
  data : Except String String
  deriving DecidableEq, Repr

/-- Model of `io.ReadAll`: on success returns the contents and leaves the
reader exhausted (a further full read yields the empty string); on failure
returns the read error. -/
def io_ReadAll (r : Reader) : Except String (String × Reader) :=
  match r.data with
  | .error e => .error e
  | .ok s => .ok (s, ⟨.ok ""⟩)

/-- Model of `net/url.URL`: the parts of a URL the library reads.  The query
is modelled already parsed, as `URL.Query()` returns it. -/
structure URL where
  scheme : String
  host : String
  path : String
  query : List (String × String)
  deriving DecidableEq, Repr

/-- Model of `http.Request`: method, URL, headers and a body reader.  The
header is a key/value list; `Header.Get` returns the first value of a key. -/
structure Request where
  method : String
  url : URL
  header : List (String × String)
  body : Reader
  deriving DecidableEq, Repr

/-- Model of `http.Header.Get` and `url.Values.Get`: the first value stored
under the key, or the empty string when the key is absent. -/
def getFirst (l : List (String × String)) (k : String) : String :=
  (List.lookup k l).getD ""

/-- Model of `http.Response`: the fields the library constructs. -/
structure Response where
  statusCode : Int
  header : List (String × String)
  body : Reader
  request : Option Request
  deriving DecidableEq, Repr

/-- Type of a round-trip producer, Go `func(*http.Request) (*http.Response, error)`. -/
abbrev RoundTripFn := Request → Except Failure Response

namespace rtq

/-- Type of a match criterion, Go `type MatchFunc func(*http.Request) (bool, error)`.
A criterion may mutate the request (`BodyString` replaces the body reader),
so the possibly-updated request is returned alongside the boolean. -/
abbrev MatchFunc := Request → Except Failure (Bool × Request)

/-- Go struct `RoundTripQueue` of package rtq: a list of match criteria and a
FIFO of response producers. -/
structure RoundTripQueue where
  matchFuncs : List MatchFunc
  roundTripFuncs : List RoundTripFn

/-- The origin criterion installed by `New`: scheme://host equality. -/
def originMatch (origin : String) : MatchFunc :=
  fun req => .ok (req.url.scheme ++ "://" ++ req.url.host == origin, req)

/-- Go `New(origin string) RoundTripQueue`. -/
def New (origin : String) : RoundTripQueue :=
  { matchFuncs := [originMatch origin], roundTripFuncs := [] }

/-- The loop body of Go method `match`: run the criteria left to right,
propagating the first error, stopping false at the first unsatisfied one. -/
def matchList : List MatchFunc → Request → Except Failure (Bool × Request)
  | [], req => .ok (true, req)
  | f :: fs, req =>
    match f req with
    | .error e => .error e
    | .ok (m, req') => if m then matchList fs req' else .ok (false, req')

/-- Go method `match` of `RoundTripQueue` (named `queueMatch` because `match`
is reserved in Lean): the conjunction of all criteria of the queue. -/
def queueMatch (q : RoundTripQueue) (req : Request) : Except Failure (Bool × Request) :=
  matchList q.matchFuncs req

/-- Go method `Header`: appends an exact header-equality criterion. -/
def RoundTripQueue.Header (q : RoundTripQueue) (key value : String) : RoundTripQueue :=
  { q with matchFuncs := q.matchFuncs ++
      [fun req => .ok (getFirst req.header key == value, req)] }

/-- Go method `method`: appends a method-equality criterion. -/
def RoundTripQueue.method (q : RoundTripQueue) (m : String) : RoundTripQueue :=
  { q with matchFuncs := q.matchFuncs ++
      [fun req => .ok (req.method == m, req)] }

/-- Go method `path`: appends a path-equality criterion. -/
def RoundTripQueue.path (q : RoundTripQueue) (p : String) : RoundTripQueue :=
  { q with matchFuncs := q.matchFuncs ++
      [fun req => .ok (req.url.path == p, req)] }

/-- Go method `Get`: method GET plus the given path. -/
def RoundTripQueue.Get (q : RoundTripQueue) (p : String) : RoundTripQueue :=
  (q.method "GET").path p

/-- Go method `Post`. -/
def RoundTripQueue.Post (q : RoundTripQueue) (p : String) : RoundTripQueue :=
  (q.method "POST").path p

/-- Go method `Put`. -/
def RoundTripQueue.Put (q : RoundTripQueue) (p : String) : RoundTripQueue :=
  (q.method "PUT").path p

/-- Go method `Delete`. -/
def RoundTripQueue.Delete (q : RoundTripQueue) (p : String) : RoundTripQueue :=
  (q.method "DELETE").path p

/-- Go method `Query`: appends an exact query-parameter criterion. -/
def RoundTripQueue.Query (q : RoundTripQueue) (key value : String) : RoundTripQueue :=
  { q with matchFuncs := q.matchFuncs ++
      [fun req => .ok (getFirst req.url.query key == value, req)] }

/-- The criterion installed by `BodyString`: read the whole body (propagating
a read failure as an error), restore the body from the bytes read, and
compare them with the expected string. -/
def bodyStringMatch (body : String) : MatchFunc :=
  fun req =>
    match io_ReadAll req.body with
    | .error e => .error (.goError e)
    | .ok (got, _) => .ok (got == body, { req with body := ⟨.ok got⟩ })

/-- Go method `BodyString`. -/
def RoundTripQueue.BodyString (q : RoundTripQueue) (body : String) : RoundTripQueue :=
  { q with matchFuncs := q.matchFuncs ++ [bodyStringMatch body] }

/-- Go method `Matcher`: appends a caller-supplied criterion. -/
def RoundTripQueue.Matcher (q : RoundTripQueue) (f : MatchFunc) : RoundTripQueue :=
  { q with matchFuncs := q.matchFuncs ++ [f] }

/-- The producer installed by `ResponseSimple`. -/
def responseSimpleFn (statusCode : Int) (body : String) : RoundTripFn :=
  fun req => .ok { statusCode := statusCode, header := [],
                   body := ⟨.ok body⟩, request := some req }

/-- Go method `ResponseSimple`. -/
def RoundTripQueue.ResponseSimple (q : RoundTripQueue) (statusCode : Int) (body : String) :
    RoundTripQueue :=
  { q with roundTripFuncs := q.roundTripFuncs ++ [responseSimpleFn statusCode body] }

/-- The producer installed by `ResponseJSON`.  `json.Marshal` of the Go value
is external; `b` stands for the marshalled bytes (`Marshal` panics at
construction time on an unserialisable value, before any producer exists). -/
def responseJSONFn (statusCode : Int) (b : String) : RoundTripFn :=
  fun req => .ok { statusCode := statusCode,
                   header := [("Content-Type", "application/json")],
                   body := ⟨.ok b⟩, request := some req }

/-- Go method `ResponseJSON`, taking the marshalled body bytes. -/
def RoundTripQueue.ResponseJSON (q : RoundTripQueue) (statusCode : Int) (b : String) :
    RoundTripQueue :=
  { q with roundTripFuncs := q.roundTripFuncs ++ [responseJSONFn statusCode b] }

/-- Go method `Response`: a producer returning a fixed response. -/
def RoundTripQueue.Response (q : RoundTripQueue) (res : Response) : RoundTripQueue :=
  { q with roundTripFuncs := q.roundTripFuncs ++ [fun _ => .ok res] }

/-- Go method `ResponseFunc`: appends a caller-supplied producer. -/
def RoundTripQueue.ResponseFunc (q : RoundTripQueue) (fn : RoundTripFn) : RoundTripQueue :=
  { q with roundTripFuncs := q.roundTripFuncs ++ [fn] }

/-- Go struct `requestLog`: one audit record. -/
structure RequestLog where
  matched : Bool
  request : Request

/-- Go struct `MockTransport`: the queue list and the audit log.  The
`sync.Mutex` field serialises `dequeue`; it has no data content. -/
structure MockTransport where
  queues : List RoundTripQueue
  requestLogs : List RequestLog

/-- Go `NewTransport(queues ...RoundTripQueue)`. -/
def NewTransport (queues : List RoundTripQueue) : MockTransport :=
  { queues := queues, requestLogs := [] }

/-- Shift a found-queue index by one; used when one queue of the list has
been passed over, mirroring pointer identity in the Go scan. -/
def shiftIdx : Except Failure (Option Nat × Request) → Except Failure (Option Nat × Request)
  | .error e => .error e
  | .ok (o, req) => .ok (o.map (· + 1), req)

/-- Go method `find` of `MockTransport`: scan the queues in order, skipping
any queue whose FIFO is empty; evaluate the criteria of the others,
propagating a criterion error; return the first satisfied queue.  The Go
code returns a queue pointer; the index into the list plays that role. -/
def find : List RoundTripQueue → Request → Except Failure (Option Nat × Request)
  | [], req => .ok (none, req)
  | q :: qs, req =>
    if q.roundTripFuncs.length ≠ 0 then
      match queueMatch q req with
      | .error e => .error e
      | .ok (true, req') => .ok (some 0, req')
      | .ok (false, req') => shiftIdx (find qs req')
    else
      shiftIdx (find qs req)

/-- Placeholder queue for out-of-range `List.getD`; `find` never returns an
out-of-range index. -/
def emptyQueue : RoundTripQueue := { matchFuncs := [], roundTripFuncs := [] }

/-- Indexing an empty Go slice panics; `dequeue` is never in that case
because `find` only returns queues with a non-empty FIFO. -/
def panicFn : RoundTripFn := fun _ => .error (.goPanic "index out of range")

/-- Go method `dequeue` of `MockTransport` (the body runs under the mutex):
find a matching queue; on a criterion error return it with no state change;
on no match append an unmatched audit record and fail; on a match append a
matched record, pop the head producer of the winning queue and return it. -/
def dequeue (m : MockTransport) (req : Request) :
    Except Failure (RoundTripFn × Request) × MockTransport :=
  match find m.queues req with
  | .error e => (.error e, m)
  | .ok (none, req') =>
    (.error (.goError "mock is not registered"),
     { m with requestLogs := m.requestLogs ++ [{ matched := false, request := req' }] })
  | .ok (some i, req') =>
    let q := m.queues.getD i emptyQueue
    (.ok (q.roundTripFuncs.headD panicFn, req'),
     { m with
        requestLogs := m.requestLogs ++ [{ matched := true, request := req' }],
        queues := m.queues.set i { q with roundTripFuncs := q.roundTripFuncs.tail } })

/-- Go method `RoundTrip` of `MockTransport`: dequeue a producer and run it
on the (possibly body-restored) request. -/
def RoundTrip (m : MockTransport) (req : Request) :
    Except Failure Response × MockTransport :=
  match dequeue m req with
  | (.error e, m') => (.error e, m')
  | (.ok (fn, req'), m') => (fn req', m')

/-- Go method `unmatchRequests`: the requests of the unmatched audit records. -/
def unmatchRequests (m : MockTransport) : List Request :=
  (m.requestLogs.filter (fun l => !l.matched)).map (fun l => l.request)

/-- Total number of response entries remaining across all queues, the
quantity Go computes with `lo.SumBy`. -/
def listTotal (qs : List RoundTripQueue) : Nat :=
  (qs.map (fun q => q.roundTripFuncs.length)).sum

/-- Go method `Completed`: no response entry remains and no request went
unmatched. -/
def Completed (m : MockTransport) : Bool :=
  (listTotal m.queues == 0) && ((unmatchRequests m).length == 0)

/-- The sequence numbers `RequestLogString` prints: record `i` is numbered
`i + 1`, in arrival order. -/
def seqNumbers (m : MockTransport) : List Nat :=
  (List.range m.requestLogs.length).map (· + 1)

/-- Run a list of intercepts in order (the mutex serialises concurrent calls
into such a sequence), collecting each dequeue result. -/
def runDequeues : MockTransport → List Request →
    List (Except Failure (RoundTripFn × Request)) × MockTransport
  | m, [] => ([], m)
  | m, req :: rs =>
    let step := dequeue m req
    let rest := runDequeues step.2 rs
    (step.1 :: rest.1, rest.2)

/-- The producers handed out by the successful dequeues of a run. -/
def okFns (l : List (Except Failure (RoundTripFn × Request))) : List RoundTripFn :=
  l.filterMap (fun x => match x with
    | .ok (fn, _) => some fn
    | .error _ => none)

/-- The producers served from the queue at index `i` while the transport
processes a request list in order. -/
def servedFrom (i : Nat) : MockTransport → List Request → List RoundTripFn
  | _, [] => []
  | m, req :: rs =>
    let rest := servedFrom i (dequeue m req).2 rs
    match (dequeue m req).1, find m.queues req with
    | .ok (fn, _), .ok (some j, _) => if j = i then fn :: rest else rest
    | _, _ => rest

/-- Index of the first queue with a non-empty FIFO, the queue `find` selects
when every criterion of every queue is satisfied. -/
def firstNonemptyIdx : List RoundTripQueue → Option Nat
  | [] => none
  | q :: qs =>
    if q.roundTripFuncs.length ≠ 0 then some 0
    else (firstNonemptyIdx qs).map (· + 1)

/-- Concatenation of all FIFOs in queue order; when every criterion of every
queue is satisfied, a drain of the transport hands the producers out in
exactly this order. -/
def joinFns (qs : List RoundTripQueue) : List RoundTripFn :=
  (qs.map (fun q => q.roundTripFuncs)).flatten

end rtq

namespace rtqueue

/-- Go struct `httpRequest` of package rtqueue: the request pattern a queue
was configured with. -/
structure httpRequest where
  header : List (String × String)
  query : List (String × String)
  method : Option String
  url : Option URL
  body : Option Reader
  deriving DecidableEq, Repr

/-- Go struct `RoundTripQueue` of package rtqueue. -/
structure RoundTripQueue where
  request : httpRequest
  roundTrips : List RoundTripFn

/-- Go `New()`: empty header and query, no method, url or body pattern. -/
def New : RoundTripQueue :=
  { request := { header := [], query := [], method := none, url := none, body := none },
    roundTrips := [] }

/-- Model of `http.Header.Set` and `url.Values.Set`: store exactly one value
under the key, replacing any previous one. -/
def setKV (l : List (String × String)) (k v : String) : List (String × String) :=
  (l.filter (fun p => p.1 ≠ k)) ++ [(k, v)]

/-- Go method `Header` of package rtqueue. -/
def RoundTripQueue.Header (q : RoundTripQueue) (key value : String) : RoundTripQueue :=
  { q with request := { q.request with header := setKV q.request.header key value } }

/-- Go method `method` of package rtqueue. -/
def RoundTripQueue.method (q : RoundTripQueue) (m : String) : RoundTripQueue :=
  { q with request := { q.request with method := some m } }

/-- Go method `path` of package rtqueue: stores `&url.URL{Path: path}`. -/
def RoundTripQueue.path (q : RoundTripQueue) (p : String) : RoundTripQueue :=
  { q with request := { q.request with
      url := some { scheme := "", host := "", path := p, query := [] } } }

/-- Go method `Get` of package rtqueue. -/
def RoundTripQueue.Get (q : RoundTripQueue) (p : String) : RoundTripQueue :=
  (q.method "GET").path p

/-- Go method `Post` of package rtqueue. -/
def RoundTripQueue.Post (q : RoundTripQueue) (p : String) : RoundTripQueue :=
  (q.method "POST").path p

/-- Go method `Put` of package rtqueue. -/
def RoundTripQueue.Put (q : RoundTripQueue) (p : String) : RoundTripQueue :=
  (q.method "PUT").path p

/-- Go method `Delete` of package rtqueue. -/
def RoundTripQueue.Delete (q : RoundTripQueue) (p : String) : RoundTripQueue :=
  (q.method "DELETE").path p

/-- Go method `Query` of package rtqueue. -/
def RoundTripQueue.Query (q : RoundTripQueue) (key value : String) : RoundTripQueue :=
  { q with request := { q.request with query := setKV q.request.query key value } }

/-- Go method `BodyString` of package rtqueue: stores `strings.NewReader(body)`. -/
def RoundTripQueue.BodyString (q : RoundTripQueue) (body : String) : RoundTripQueue :=
  { q with request := { q.request with body := some ⟨.ok body⟩ } }

/-- Go method `ResponseSimple` of package rtqueue. -/
def RoundTripQueue.ResponseSimple (q : RoundTripQueue) (statusCode : Int) (body : String) :
    RoundTripQueue :=
  { q with roundTrips := q.roundTrips ++ [rtq.responseSimpleFn statusCode body] }

/-- Go method `ResponseJSON` of package rtqueue, taking the marshalled bytes. -/
def RoundTripQueue.ResponseJSON (q : RoundTripQueue) (statusCode : Int) (b : String) :
    RoundTripQueue :=
  { q with roundTrips := q.roundTrips ++ [rtq.responseJSONFn statusCode b] }

/-- Go method `Response` of package rtqueue. -/
def RoundTripQueue.Response (q : RoundTripQueue) (res : Response) : RoundTripQueue :=
  { q with roundTrips := q.roundTrips ++ [fun _ => .ok res] }

/-- Go method `ResponseFunc` of package rtqueue. -/
def RoundTripQueue.ResponseFunc (q : RoundTripQueue) (fn : RoundTripFn) : RoundTripQueue :=
  { q with roundTrips := q.roundTrips ++ [fn] }

/-- Go method `matchBody`: no body pattern matches everything; otherwise read
the request body and the pattern body (a read failure makes Go `panic`,
modelled as the `.error` outcome), restore both readers from the bytes read
(mutating the request and the queue in place, modelled as returned copies)
and compare the bytes. -/
def matchBody (q : RoundTripQueue) (req : Request) :
    Except String (Bool × Request × RoundTripQueue) :=
  match q.request.body with
  | none => .ok (true, req, q)
  | some qb =>
    match io_ReadAll req.body with
    | .error e => .error e
    | .ok (bl, _) =>
      let req' := { req with body := ⟨.ok bl⟩ }
      match io_ReadAll qb with
      | .error e => .error e
      | .ok (br, _) =>
        .ok (bl == br, req',
             { q with request := { q.request with body := some ⟨.ok br⟩ } })

/-- The method clause of the `find` predicate: a configured method that
differs from the request method rejects the queue. -/
def methodMismatch (q : RoundTripQueue) (req : Request) : Bool :=
  match q.request.method with
  | none => false
  | some mth => mth != req.method

/-- The url clause of the `find` predicate: a configured path that differs
from the request path rejects the queue. -/
def urlMismatch (q : RoundTripQueue) (req : Request) : Bool :=
  match q.request.url with
  | none => false
  | some u => u.path != req.url.path

/-- The predicate closure inside Go method `find` of `RoundTripQueues`:
header containment, query containment, method, path, then `matchBody`
(whose panic aborts the whole scan), and finally the queue is rejected when
its FIFO is empty. -/
def queuePred (q : RoundTripQueue) (req : Request) :
    Except String (Bool × Request × RoundTripQueue) :=
  if ¬ (q.request.header.all (fun p => getFirst q.request.header p.1 == getFirst req.header p.1)) then
    .ok (false, req, q)
  else if ¬ (q.request.query.all (fun p => getFirst q.request.query p.1 == getFirst req.url.query p.1)) then
    .ok (false, req, q)
  else if methodMismatch q req then
    .ok (false, req, q)
  else if urlMismatch q req then
    .ok (false, req, q)
  else
    match matchBody q req with
    | .error e => .error e
    | .ok (b, req', q') =>
      if ¬ b then .ok (false, req', q')
      else if q'.roundTrips.length = 0 then .ok (false, req', q')
      else .ok (true, req', q')

/-- Go method `find` of `RoundTripQueues`, the `lo.Find` scan over one
origin's queue list.  The Go code returns a queue pointer and mutates queues
and the request in place through `matchBody`; the model returns the index of
the found queue together with the updated request and queue list. -/
def find : List RoundTripQueue → Request →
    Except String (Option Nat × Request × List RoundTripQueue)
  | [], req => .ok (none, req, [])
  | q :: qs, req =>
    match queuePred q req with
    | .error e => .error e
    | .ok (true, req', q') => .ok (some 0, req', q' :: qs)
    | .ok (false, req', q') =>
      match find qs req' with
      | .error e => .error e
      | .ok (o, req'', qs') => .ok (o.map (· + 1), req'', q' :: qs')

/-- Go struct `RoundTripQueues`: the origin map (modelled as an association
list with unique keys, since Go map iteration order never matters here) and
the unmatched-request list. -/
structure RoundTripQueues where
  queues : List (String × List RoundTripQueue)
  unmatchRequests : List Request

/-- Go `NewTransport()` of package rtqueue. -/
def NewTransport : RoundTripQueues :=
  { queues := [], unmatchRequests := [] }

/-- Map write `qs.queues[origin] = queueList`: replace the entry when the key
exists, otherwise add it. -/
def setEntry : List (String × List RoundTripQueue) → String → List RoundTripQueue →
    List (String × List RoundTripQueue)
  | [], key, v => [(key, v)]
  | (k, w) :: rest, key, v =>
    if k = key then (k, v) :: rest else (k, w) :: setEntry rest key v

/-- Go method `SetMock`. -/
def SetMock (qs : RoundTripQueues) (origin : String) (l : List RoundTripQueue) :
    RoundTripQueues :=
  { qs with queues := setEntry qs.queues origin l }

/-- Go `origin(u *url.URL)`. -/
def origin (u : URL) : String :=
  u.scheme ++ "://" ++ u.host

/-- Placeholder queue for out-of-range `List.getD`. -/
def emptyQueue : RoundTripQueue := New

/-- Go method `RoundTrip` of `RoundTripQueues`: look up the origin's queue
list (a missing origin yields the empty list), scan it; a `matchBody` panic
unwinds; no match appends the request to `unmatchRequests` and fails with
the generic error; a match pops the head producer of the winning queue
(writing the updated list back, as the Go pointer mutation does) and runs
it. -/
def RoundTrip (qs : RoundTripQueues) (req : Request) :
    Except Failure Response × RoundTripQueues :=
  let key := origin req.url
  let ql := (List.lookup key qs.queues).getD []
  match find ql req with
  | .error e => (.error (.goPanic e), qs)
  | .ok (none, req', _) =>
    (.error (.goError "mock is not registered"),
     { qs with unmatchRequests := qs.unmatchRequests ++ [req'] })
  | .ok (some i, req', ql') =>
    let q := ql'.getD i emptyQueue
    let fn := q.roundTrips.headD rtq.panicFn
    let ql'' := ql'.set i { q with roundTrips := q.roundTrips.tail }
    (fn req', { qs with queues := setEntry qs.queues key ql'' })

/-- Go method `Completed` of package rtqueue: sum the remaining producers of
every queue of every origin (`lo.Flatten(lo.Values(...))`) and require no
unmatched request. -/
def Completed (qs : RoundTripQueues) : Bool :=
  ((((qs.queues.map (fun p => p.2)).flatten).map (fun q => q.roundTrips.length)).sum == 0)
    && (qs.unmatchRequests.length == 0)

/-- Shift a scan result past one skipped queue, keeping that queue at the
head of the returned list, as the Go scan by pointer does. -/
def shiftCons (q : RoundTripQueue) :
    Except String (Option Nat × Request × List RoundTripQueue) →
    Except String (Option Nat × Request × List RoundTripQueue)
  | .error e => .error e
  | .ok (o, r, qs) => .ok (o.map (· + 1), r, q :: qs)

/-- The producers served from the queue at index `i` of origin `key` while
the transport processes a request list in order; the tracked value is the
head producer `RoundTrip` pops when its scan selects that queue. -/
def servedFromQ (key : String) (i : Nat) :
    RoundTripQueues → List Request → List RoundTripFn
  | _, [] => []
  | qs, req :: rs =>
    let rest := servedFromQ key i (RoundTrip qs req).2 rs
    match find ((List.lookup (origin req.url) qs.queues).getD []) req with
    | .ok (some j, _, ql') =>
      if origin req.url = key ∧ j = i then
        (ql'.getD j emptyQueue).roundTrips.headD rtq.panicFn :: rest
      else rest
    | _ => rest

/-- The read half of the unsynchronised pop, Go line
`roundTrip := q.roundTrips[0]` of `RoundTripQueues.RoundTrip`: reads the
head producer of the queue at index `i` without removing it. -/
def popRead (ql : List RoundTripQueue) (i : Nat) : RoundTripFn :=
  (ql.getD i emptyQueue).roundTrips.headD rtq.panicFn

/-- The write half of the unsynchronised pop, Go line
`q.roundTrips = q.roundTrips[1:]` of `RoundTripQueues.RoundTrip`: replaces
the FIFO of the queue at index `i` by its tail.  No lock guards the pair of
statements, so two goroutines may both run `popRead` before either runs
`popWrite`. -/
def popWrite (ql : List RoundTripQueue) (i : Nat) : List RoundTripQueue :=
  ql.set i { ql.getD i emptyQueue with
    roundTrips := (ql.getD i emptyQueue).roundTrips.tail }

end rtqueue

/-! Concrete scenarios used to evaluate the engine on explicit inputs. -/

/-- First producer of the FIFO-order scenario. -/
def c1f1 : RoundTripFn := rtq.responseSimpleFn 200 "a"

/-- Second producer of the FIFO-order scenario. -/
def c1f2 : RoundTripFn := rtq.responseSimpleFn 200 "b"

/-- Third producer of the FIFO-order scenario. -/
def c1f3 : RoundTripFn := rtq.responseSimpleFn 200 "c"

/-- One queue with three enqueued producers. -/
def c1queue : rtq.RoundTripQueue :=
  (((rtq.New "http://example.com").ResponseFunc c1f1).ResponseFunc c1f2).ResponseFunc c1f3

/-- A request matching the scenario queue origin. -/
def c1reqMatch : Request :=
  { method := "GET",
    url := { scheme := "http", host := "example.com", path := "/a", query := [] },
    header := [], body := ⟨.ok ""⟩ }

/-- A request to a different origin, matched by no queue. -/
def c1reqOther : Request :=
  { method := "GET",
    url := { scheme := "http", host := "other.com", path := "/a", query := [] },
    header := [], body := ⟨.ok ""⟩ }

/-- Transport of the FIFO-order scenario. -/
def c1m : rtq.MockTransport := rtq.NewTransport [c1queue]

/-- Three matching requests with non-matching ones interleaved. -/
def c1reqs : List Request :=
  [c1reqOther, c1reqMatch, c1reqOther, c1reqMatch, c1reqMatch, c1reqOther]

/-- An exhausted rtqueue queue carrying a body criterion. -/
def c2qEx : rtqueue.RoundTripQueue := rtqueue.New.BodyString "x"

/-- A later same-origin queue with no criteria and one response. -/
def c2q2 : rtqueue.RoundTripQueue := rtqueue.New.ResponseSimple 200 "ok"

/-- A request whose body reader fails. -/
def c2req : Request :=
  { method := "GET",
    url := { scheme := "http", host := "example.com", path := "/a", query := [] },
    header := [], body := ⟨.error "boom"⟩ }

/-- Transport with the exhausted queue registered in front of the serving one. -/
def c2T : rtqueue.RoundTripQueues :=
  rtqueue.SetMock rtqueue.NewTransport "http://example.com" [c2qEx, c2q2]

/-- A request whose body reads "x" successfully. -/
def c2okreq : Request :=
  { method := "GET",
    url := { scheme := "http", host := "example.com", path := "/a", query := [] },
    header := [], body := ⟨.ok "x"⟩ }

/-- An exhausted rtq queue (fresh from `New`, no responses). -/
def c2qExRtq : rtq.RoundTripQueue := rtq.New "http://example.com"

/-- Transport holding exactly one response entry. -/
def c3m : rtq.MockTransport :=
  rtq.NewTransport [(rtq.New "http://a").ResponseSimple 200 "x"]

/-- A request to an origin no queue of `c3m` matches. -/
def c3req : Request :=
  { method := "GET",
    url := { scheme := "http", host := "b", path := "/", query := [] },
    header := [], body := ⟨.ok ""⟩ }

/-- Transport with one queue holding two responses, for the drain scenario. -/
def c3wm : rtq.MockTransport :=
  rtq.NewTransport [((rtq.New "http://a").ResponseSimple 200 "x").ResponseSimple 200 "y"]

/-- First drained request. -/
def c3wreq1 : Request :=
  { method := "GET",
    url := { scheme := "http", host := "a", path := "/1", query := [] },
    header := [], body := ⟨.ok ""⟩ }

/-- Second drained request. -/
def c3wreq2 : Request :=
  { method := "GET",
    url := { scheme := "http", host := "a", path := "/2", query := [] },
    header := [], body := ⟨.ok ""⟩ }

/-- The two drain requests in one arrival order. -/
def c3wreqs : List Request := [c3wreq1, c3wreq2]

/-- A caller-supplied criterion that fails with an error. -/
def c4err : rtq.MatchFunc := fun _ => .error (.goError "boom")

/-- Transport whose single queue has an erroring criterion and one response. -/
def c4m : rtq.MockTransport :=
  rtq.NewTransport [((rtq.New "http://a").Matcher c4err).ResponseSimple 200 "x"]

/-- A request reaching the erroring criterion. -/
def c4req : Request :=
  { method := "GET",
    url := { scheme := "http", host := "a", path := "/", query := [] },
    header := [], body := ⟨.ok ""⟩ }

/-- Transport with one queue and one response, for the unmatched-record case. -/
def c4wm : rtq.MockTransport :=
  rtq.NewTransport [(rtq.New "http://a").ResponseSimple 200 "x"]

/-- A request matched by no queue of `c4wm`. -/
def c4wreq : Request :=
  { method := "GET",
    url := { scheme := "http", host := "nomatch", path := "/", query := [] },
    header := [], body := ⟨.ok ""⟩ }

/-- rtqueue transport with queues registered for origin http://a only. -/
def c5T : rtqueue.RoundTripQueues :=
  rtqueue.SetMock rtqueue.NewTransport "http://a"
    [(rtqueue.New.Post "/p").ResponseSimple 200 "x"]

/-- A request to the registered origin that no queue matches (method differs). -/
def c5reqA : Request :=
  { method := "GET",
    url := { scheme := "http", host := "a", path := "/p", query := [] },
    header := [], body := ⟨.ok ""⟩ }

/-- A request to an origin with no configured queues at all. -/
def c5reqB : Request :=
  { method := "GET",
    url := { scheme := "http", host := "b", path := "/p", query := [] },
    header := [], body := ⟨.ok ""⟩ }

/-- rtq transport for the same comparison in the rtq variant. -/
def c5m : rtq.MockTransport :=
  rtq.NewTransport [(rtq.New "http://a").ResponseSimple 200 "x"]

/-- rtqueue transport whose queue matches bodies equal to "x". -/
def c7T : rtqueue.RoundTripQueues :=
  rtqueue.SetMock rtqueue.NewTransport "http://a"
    [(rtqueue.New.BodyString "x").ResponseSimple 200 "ok"]

/-- A request to the body-matching queue whose body read fails. -/
def c7req : Request :=
  { method := "GET",
    url := { scheme := "http", host := "a", path := "/", query := [] },
    header := [], body := ⟨.error "read failed"⟩ }

/-- A request with a failing body reader, for the rtq variant. -/
def c7wreq : Request :=
  { method := "GET",
    url := { scheme := "http", host := "a", path := "/", query := [] },
    header := [], body := ⟨.error "oops"⟩ }

/-- A request with a readable body, for the restoration witness. -/
def c8req : Request :=
  { method := "GET",
    url := { scheme := "http", host := "a", path := "/", query := [] },
    header := [], body := ⟨.ok "hello"⟩ }

/-- An rtqueue queue with a body criterion and one readable-body request. -/
def c8q : rtqueue.RoundTripQueue := rtqueue.New.BodyString "hello"

/-- An exhausted queue whose criteria are cheap. -/
def c10q : rtq.RoundTripQueue := rtq.New "http://a"

/-- An exhausted queue whose criterion would error if it were ever run. -/
def c10err : rtq.MatchFunc := fun _ => .error (.goError "never run")

/-- The replacement queue of the criteria-not-evaluated witness. -/
def c10qErr : rtq.RoundTripQueue := (rtq.New "http://b").Matcher c10err

/-- A later queue with one response, matched once the exhausted one is skipped. -/
def c10tail : rtq.RoundTripQueue := (rtq.New "http://a").ResponseSimple 200 "x"

/-- The probing request of the criteria-not-evaluated witness. -/
def c10req : Request :=
  { method := "GET",
    url := { scheme := "http", host := "a", path := "/", query := [] },
    header := [], body := ⟨.ok ""⟩ }

/-- The three-producer queue of the rtqueue FIFO-order scenario. -/
def c1qT : rtqueue.RoundTripQueue :=
  ((rtqueue.New.ResponseFunc c1f1).ResponseFunc c1f2).ResponseFunc c1f3

/-- rtqueue transport of the FIFO-order scenario. -/
def c1T : rtqueue.RoundTripQueues :=
  rtqueue.SetMock rtqueue.NewTransport "http://example.com" [c1qT]

/-- Three matching requests with non-matching (other-origin) ones
interleaved, for the rtqueue FIFO-order scenario. -/
def c1qreqs : List Request :=
  [c1reqOther, c1reqMatch, c1reqMatch, c1reqOther, c1reqMatch]

/-- First producer of the rtqueue race scenario. -/
def c3race1 : RoundTripFn := rtq.responseSimpleFn 200 "first"

/-- Second producer of the rtqueue race scenario. -/
def c3race2 : RoundTripFn := rtq.responseSimpleFn 200 "second"

/-- One origin's queue list holding exactly two response entries. -/
def c3ql : List rtqueue.RoundTripQueue :=
  [(rtqueue.New.ResponseFunc c3race1).ResponseFunc c3race2]

/-- The request both racing goroutines send. -/
def c3raceReq : Request :=
  { method := "GET",
    url := { scheme := "http", host := "a", path := "/", query := [] },
    header := [], body := ⟨.ok ""⟩ }

/-- rtqueue transport with one criteria-free queue and one response, for
the successful-intercept audit scenario. -/
def c4T : rtqueue.RoundTripQueues :=
  rtqueue.SetMock rtqueue.NewTransport "http://a"
    [rtqueue.New.ResponseSimple 200 "x"]

/-- A request served successfully by `c4T`. -/
def c4qreq : Request :=
  { method := "GET",
    url := { scheme := "http", host := "a", path := "/", query := [] },
    header := [], body := ⟨.ok ""⟩ }

namespace rtq

theorem shiftIdx_error_iff {x : Except Failure (Option Nat × Request)} {e : Failure} :
    shiftIdx x = .error e ↔ x = .error e := by
  cases x with
  | error e2 => simp [shiftIdx]
  | ok p => simp [shiftIdx]

theorem shiftIdx_ok_none_iff {x : Except Failure (Option Nat × Request)} {r : Request} :
    shiftIdx x = .ok (none, r) ↔ x = .ok (none, r) := by
  cases x with
  | error e => simp [shiftIdx]
  | ok p =>
    obtain ⟨o, r0⟩ := p
    cases o <;> simp [shiftIdx]

theorem shiftIdx_ok_some {x : Except Failure (Option Nat × Request)} {j : Nat} {r : Request}
    (h : shiftIdx x = .ok (some j, r)) :
    ∃ j0, j = j0 + 1 ∧ x = .ok (some j0, r) := by
  cases x with
  | error e => simp [shiftIdx] at h
  | ok p =>
    obtain ⟨o, r0⟩ := p
    cases o with
    | none => simp [shiftIdx] at h
    | some j0 =>
      simp only [shiftIdx, Except.ok.injEq, Prod.mk.injEq, Option.map_some',
        Option.some.injEq] at h
      obtain ⟨h1, h2⟩ := h
      exact ⟨j0, by omega, by rw [h2]⟩

theorem find_some_lt : ∀ (qs : List RoundTripQueue) (req : Request) (j : Nat) (r' : Request),
    find qs req = .ok (some j, r') → j < qs.length := by
  intro qs
  induction qs with
  | nil => intro req j r' h; simp [find] at h
  | cons q qs ih =>
    intro req j r' h
    simp only [find] at h
    split at h
    · split at h
      · exact absurd h (by simp)
      · rename_i req2 heq
        simp only [Except.ok.injEq, Prod.mk.injEq, Option.some.injEq] at h
        obtain ⟨h1, _⟩ := h
        simp only [List.length_cons]
        omega
      · rename_i req2 heq
        obtain ⟨j0, hj, hx⟩ := shiftIdx_ok_some h
        have := ih req2 j0 r' hx
        simp only [List.length_cons]
        omega
    · obtain ⟨j0, hj, hx⟩ := shiftIdx_ok_some h
      have := ih req j0 r' hx
      simp only [List.length_cons]
      omega

theorem find_some_nonempty :
    ∀ (qs : List RoundTripQueue) (req : Request) (j : Nat) (r' : Request),
    find qs req = .ok (some j, r') → (qs.getD j emptyQueue).roundTripFuncs ≠ [] := by
  intro qs
  induction qs with
  | nil => intro req j r' h; simp [find] at h
  | cons q qs ih =>
    intro req j r' h
    simp only [find] at h
    split at h
    · rename_i hne
      split at h
      · exact absurd h (by simp)
      · simp only [Except.ok.injEq, Prod.mk.injEq, Option.some.injEq] at h
        obtain ⟨h1, _⟩ := h
        subst h1
        simp only [List.getD_cons_zero]
        exact fun hq => hne (by simp [hq])
      · rename_i req2 heq
        obtain ⟨j0, hj, hx⟩ := shiftIdx_ok_some h
        rw [hj]
        simpa using ih req2 j0 r' hx
    · obtain ⟨j0, hj, hx⟩ := shiftIdx_ok_some h
      rw [hj]
      simpa using ih req j0 r' hx

theorem find_skip (q : RoundTripQueue) (qs : List RoundTripQueue) (req : Request)
    (h : q.roundTripFuncs = []) :
    find (q :: qs) req = shiftIdx (find qs req) := by
  simp [find, h]

theorem find_allTrue : ∀ (qs : List RoundTripQueue) (req : Request),
    (∀ q ∈ qs, queueMatch q req = .ok (true, req)) →
    find qs req = .ok (firstNonemptyIdx qs, req) := by
  intro qs
  induction qs with
  | nil => intro req _; simp [find, firstNonemptyIdx]
  | cons q qs ih =>
    intro req h
    by_cases hq : q.roundTripFuncs.length ≠ 0
    · simp [find, hq, h q (by simp), firstNonemptyIdx]
    · have hrec := ih req (fun p hp => h p (by simp [hp]))
      simp [find, hq, firstNonemptyIdx, hrec, shiftIdx]

theorem dequeue_find_error {m : MockTransport} {req : Request} {e : Failure}
    (h : find m.queues req = .error e) :
    dequeue m req = (.error e, m) := by
  simp [dequeue, h]

theorem dequeue_find_none {m : MockTransport} {req : Request} {r' : Request}
    (h : find m.queues req = .ok (none, r')) :
    dequeue m req = (.error (.goError "mock is not registered"),
      { m with requestLogs := m.requestLogs ++ [{ matched := false, request := r' }] }) := by
  simp [dequeue, h]

theorem dequeue_find_some {m : MockTransport} {req : Request} {j : Nat} {r' : Request}
    (h : find m.queues req = .ok (some j, r')) :
    dequeue m req =
      (.ok ((m.queues.getD j emptyQueue).roundTripFuncs.headD panicFn, r'),
       { m with
          requestLogs := m.requestLogs ++ [{ matched := true, request := r' }],
          queues := m.queues.set j
            { m.queues.getD j emptyQueue with
                roundTripFuncs := (m.queues.getD j emptyQueue).roundTripFuncs.tail } }) := by
  simp [dequeue, h]

theorem getD_set_ne (l : List RoundTripQueue) (j i : Nat) (a : RoundTripQueue)
    (hij : j ≠ i) :
    (l.set j a).getD i emptyQueue = l.getD i emptyQueue := by
  simp [List.getD_eq_getElem?_getD, List.getElem?_set_ne hij]

theorem getD_set_self (l : List RoundTripQueue) (j : Nat) (a : RoundTripQueue)
    (hj : j < l.length) :
    (l.set j a).getD j emptyQueue = a := by
  simp [List.getD_eq_getElem?_getD, List.getElem?_set_eq_of_lt a hj]

theorem servedFrom_take : ∀ (reqs : List Request) (m : MockTransport) (i : Nat),
    servedFrom i m reqs =
      ((m.queues.getD i emptyQueue).roundTripFuncs).take (servedFrom i m reqs).length := by
  intro reqs
  induction reqs with
  | nil => intro m i; simp [servedFrom]
  | cons req rs ih =>
    intro m i
    cases hf : find m.queues req with
    | error e =>
      have hd := dequeue_find_error hf
      simp only [servedFrom, hd, hf]
      exact ih m i
    | ok p =>
      obtain ⟨o, r'⟩ := p
      cases o with
      | none =>
        have hd := dequeue_find_none hf
        simp only [servedFrom, hd, hf]
        exact ih _ i
      | some j =>
        have hd := dequeue_find_some hf
        have hlt := find_some_lt m.queues req j r' hf
        have hne := find_some_nonempty m.queues req j r' hf
        by_cases hij : j = i
        · subst hij
          obtain ⟨f, t, hft⟩ := List.exists_cons_of_ne_nil hne
          simp only [servedFrom, hd, hf, if_pos rfl, if_true]
          have hih := ih
            { m with
                requestLogs := m.requestLogs ++ [{ matched := true, request := r' }],
                queues := m.queues.set j
                  { m.queues.getD j emptyQueue with
                      roundTripFuncs := (m.queues.getD j emptyQueue).roundTripFuncs.tail } } j
          rw [show ({ m with
                requestLogs := m.requestLogs ++ [{ matched := true, request := r' }],
                queues := m.queues.set j
                  { m.queues.getD j emptyQueue with
                      roundTripFuncs := (m.queues.getD j emptyQueue).roundTripFuncs.tail } }
              : MockTransport).queues = m.queues.set j
                  { m.queues.getD j emptyQueue with
                      roundTripFuncs := (m.queues.getD j emptyQueue).roundTripFuncs.tail }
            from rfl] at hih
          rw [getD_set_self _ _ _ hlt] at hih
          simp only [hft] at hih ⊢
          simp only [List.tail_cons, List.headD_cons] at hih ⊢
          rw [List.length_cons, List.take_succ_cons]
          exact congrArg (f :: ·) hih
        · simp only [servedFrom, hd, hf, if_neg (fun hh => hij hh)]
          have hih := ih
            { m with
                requestLogs := m.requestLogs ++ [{ matched := true, request := r' }],
                queues := m.queues.set j
                  { m.queues.getD j emptyQueue with
                      roundTripFuncs := (m.queues.getD j emptyQueue).roundTripFuncs.tail } } i
          rw [show ({ m with
                requestLogs := m.requestLogs ++ [{ matched := true, request := r' }],
                queues := m.queues.set j
                  { m.queues.getD j emptyQueue with
                      roundTripFuncs := (m.queues.getD j emptyQueue).roundTripFuncs.tail } }
              : MockTransport).queues = m.queues.set j
                  { m.queues.getD j emptyQueue with
                      roundTripFuncs := (m.queues.getD j emptyQueue).roundTripFuncs.tail }
            from rfl] at hih
          rw [getD_set_ne _ _ _ _ hij] at hih
          exact hih

theorem firstNonemptyIdx_of_total_ne :
    ∀ qs : List RoundTripQueue, listTotal qs ≠ 0 → ∃ j, firstNonemptyIdx qs = some j := by
  intro qs
  induction qs with
  | nil => intro h; simp [listTotal] at h
  | cons q rest ih =>
    intro h
    by_cases hq : q.roundTripFuncs.length ≠ 0
    · exact ⟨0, by simp [firstNonemptyIdx, hq]⟩
    · simp only [not_not] at hq
      have hrest : listTotal rest ≠ 0 := by
        simp only [listTotal, List.map_cons, List.sum_cons, hq] at h
        simpa [listTotal] using h
      obtain ⟨j, hj⟩ := ih hrest
      exact ⟨j + 1, by simp [firstNonemptyIdx, hq, hj]⟩

theorem firstNonemptyIdx_lt :
    ∀ (qs : List RoundTripQueue) (j : Nat),
      firstNonemptyIdx qs = some j → j < qs.length := by
  intro qs
  induction qs with
  | nil => intro j h; simp [firstNonemptyIdx] at h
  | cons q rest ih =>
    intro j h
    simp only [firstNonemptyIdx] at h
    split at h
    · simp only [Option.some.injEq] at h
      subst h
      simp
    · cases ho : firstNonemptyIdx rest with
      | none => rw [ho] at h; simp at h
      | some j0 =>
        rw [ho] at h
        simp only [Option.map_some', Option.some.injEq] at h
        have := ih j0 ho
        simp only [List.length_cons]
        omega

theorem joinFns_eq_nil : ∀ qs : List RoundTripQueue, listTotal qs = 0 → joinFns qs = [] := by
  intro qs
  induction qs with
  | nil => intro _; simp [joinFns]
  | cons q rest ih =>
    intro h
    simp only [listTotal, List.map_cons, List.sum_cons] at h
    obtain ⟨h1, h2⟩ := Nat.add_eq_zero.mp h
    have hq : q.roundTripFuncs = [] := List.length_eq_zero.mp h1
    simp [joinFns, hq]
    simpa [joinFns] using ih (by simpa [listTotal] using h2)

theorem joinFns_pop :
    ∀ (qs : List RoundTripQueue) (j : Nat), firstNonemptyIdx qs = some j →
      joinFns qs = (qs.getD j emptyQueue).roundTripFuncs.headD panicFn ::
        joinFns (qs.set j { qs.getD j emptyQueue with
          roundTripFuncs := (qs.getD j emptyQueue).roundTripFuncs.tail }) ∧
      listTotal (qs.set j { qs.getD j emptyQueue with
          roundTripFuncs := (qs.getD j emptyQueue).roundTripFuncs.tail }) + 1 =
        listTotal qs := by
  intro qs
  induction qs with
  | nil => intro j h; simp [firstNonemptyIdx] at h
  | cons q rest ih =>
    intro j h
    simp only [firstNonemptyIdx] at h
    split at h
    · rename_i hq
      simp only [Option.some.injEq] at h
      subst h
      have hqn : q.roundTripFuncs ≠ [] := fun hnil => hq (by simp [hnil])
      obtain ⟨f, t, hft⟩ := List.exists_cons_of_ne_nil hqn
      constructor
      · simp [joinFns, List.getD_cons_zero, List.set_cons_zero, hft]
      · simp only [listTotal, List.set_cons_zero, List.getD_cons_zero, List.map_cons,
          List.sum_cons, hft, List.length_cons, List.tail_cons]
        omega
    · rename_i hq
      simp only [not_not] at hq
      cases ho : firstNonemptyIdx rest with
      | none => rw [ho] at h; simp at h
      | some j0 =>
        rw [ho] at h
        simp only [Option.map_some', Option.some.injEq] at h
        subst h
        have hqnil : q.roundTripFuncs = [] := List.length_eq_zero.mp hq
        obtain ⟨ihj, iht⟩ := ih j0 ho
        constructor
        · simpa [joinFns, hqnil, List.getD_cons_succ, List.set_cons_succ]
            using ihj
        · simpa [listTotal, hqnil, List.getD_cons_succ, List.set_cons_succ]
            using iht

theorem runDequeues_drain :
    ∀ (reqs : List Request) (m : MockTransport),
    (∀ req ∈ reqs, ∀ q ∈ m.queues, queueMatch q req = .ok (true, req)) →
    listTotal m.queues = reqs.length →
    (∀ x ∈ (runDequeues m reqs).1, ∃ fn r', x = .ok (fn, r')) ∧
    okFns (runDequeues m reqs).1 = joinFns m.queues ∧
    listTotal (runDequeues m reqs).2.queues = 0 ∧
    (runDequeues m reqs).2.requestLogs.length = m.requestLogs.length + reqs.length ∧
    (∀ l ∈ (runDequeues m reqs).2.requestLogs, l ∈ m.requestLogs ∨ l.matched = true) := by
  intro reqs
  induction reqs with
  | nil =>
    intro m _ htot
    refine ⟨by simp [runDequeues], ?_, ?_, by simp [runDequeues], ?_⟩
    · simp [runDequeues, okFns, joinFns_eq_nil m.queues htot]
    · simpa [runDequeues] using htot
    · intro l hl
      exact Or.inl (by simpa [runDequeues] using hl)
  | cons req rs ih =>
    intro m hall htot
    have htne : listTotal m.queues ≠ 0 := by rw [htot]; simp
    obtain ⟨j, hj⟩ := firstNonemptyIdx_of_total_ne m.queues htne
    have hfind := find_allTrue m.queues req (fun q hq => hall req (by simp) q hq)
    rw [hj] at hfind
    have hd := dequeue_find_some hfind
    obtain ⟨hjoin, htot1⟩ := joinFns_pop m.queues j hj
    have hlt := firstNonemptyIdx_lt m.queues j hj
    have hmemj : m.queues.getD j emptyQueue ∈ m.queues := by
      rw [List.getD_eq_getElem m.queues emptyQueue hlt]
      exact List.getElem_mem hlt
    have hall' : ∀ r ∈ rs, ∀ q ∈ (m.queues.set j
        { m.queues.getD j emptyQueue with
            roundTripFuncs := (m.queues.getD j emptyQueue).roundTripFuncs.tail }),
        queueMatch q r = .ok (true, r) := by
      intro r hr q hq
      rcases List.mem_or_eq_of_mem_set hq with hmem | heq
      · exact hall r (by simp [hr]) q hmem
      · subst heq
        exact hall r (by simp [hr]) (m.queues.getD j emptyQueue) hmemj
    have htot2 : listTotal (m.queues.set j
        { m.queues.getD j emptyQueue with
            roundTripFuncs := (m.queues.getD j emptyQueue).roundTripFuncs.tail }) =
        rs.length := by
      simp only [List.length_cons] at htot
      omega
    obtain ⟨ih1, ih2, ih3, ih4, ih5⟩ := ih
      { m with
          requestLogs := m.requestLogs ++ [{ matched := true, request := req }],
          queues := m.queues.set j
            { m.queues.getD j emptyQueue with
                roundTripFuncs := (m.queues.getD j emptyQueue).roundTripFuncs.tail } }
      hall' htot2
    refine ⟨?_, ?_, ?_, ?_, ?_⟩
    · intro x hx
      simp only [runDequeues, hd] at hx
      rcases List.mem_cons.mp hx with hx1 | hx1
      · exact ⟨_, _, hx1⟩
      · exact ih1 x hx1
    · simp only [runDequeues, hd, okFns, List.filterMap_cons]
      rw [hjoin]
      exact congrArg _ ih2
    · simpa [runDequeues, hd] using ih3
    · simp only [runDequeues, hd]
      rw [ih4]
      simp only [List.length_append, List.length_cons, List.length_nil]
      omega
    · intro l hl
      simp only [runDequeues, hd] at hl
      rcases ih5 l hl with hmem | hmat
      · simp only [List.mem_append, List.mem_singleton] at hmem
        rcases hmem with hmem | hl2
        · exact Or.inl hmem
        · exact Or.inr (by rw [hl2])
      · exact Or.inr hmat

theorem find_exhausted_replace :
    ∀ (l1 : List RoundTripQueue) (q q' : RoundTripQueue) (l2 : List RoundTripQueue)
      (req : Request), q.roundTripFuncs = [] → q'.roundTripFuncs = [] →
      find (l1 ++ q :: l2) req = find (l1 ++ q' :: l2) req := by
  intro l1
  induction l1 with
  | nil =>
    intro q q' l2 req hq hq'
    simp only [List.nil_append]
    rw [find_skip q l2 req hq, find_skip q' l2 req hq']
  | cons a l1 ih =>
    intro q q' l2 req hq hq'
    simp only [List.cons_append, find]
    by_cases ha : a.roundTripFuncs.length ≠ 0
    · cases hm : queueMatch a req with
      | error e => simp [ha, hm]
      | ok p =>
        obtain ⟨b, r2⟩ := p
        cases b
        · simp [ha, hm, ih q q' l2 r2 hq hq']
        · simp [ha, hm]
    · simp [ha, ih q q' l2 req hq hq']

theorem bodyStringMatch_read_error {s : String} {req : Request} {e : String}
    (h : req.body.data = .error e) :
    bodyStringMatch s req = .error (.goError e) := by
  simp [bodyStringMatch, io_ReadAll, h]

theorem bodyStringMatch_restores {s : String} {req : Request} {b : Bool} {req' : Request}
    (h : bodyStringMatch s req = .ok (b, req')) :
    req' = req := by
  simp only [bodyStringMatch, io_ReadAll] at h
  cases hd : req.body.data with
  | error e => rw [hd] at h; exact absurd h (by simp)
  | ok s0 =>
    rw [hd] at h
    simp only [Except.ok.injEq, Prod.mk.injEq] at h
    obtain ⟨_, h2⟩ := h
    have hbody : (⟨.ok s0⟩ : Reader) = req.body := by rw [← hd]
    rw [← h2, hbody]

theorem RoundTrip_find_error {m : MockTransport} {req : Request} {e : Failure}
    (h : find m.queues req = .error e) :
    RoundTrip m req = (.error e, m) := by
  simp [RoundTrip, dequeue_find_error h]

theorem listTotal_set_pop :
    ∀ (qs : List RoundTripQueue) (j : Nat), j < qs.length →
      (qs.getD j emptyQueue).roundTripFuncs ≠ [] →
      listTotal (qs.set j { qs.getD j emptyQueue with
        roundTripFuncs := (qs.getD j emptyQueue).roundTripFuncs.tail }) + 1 =
        listTotal qs := by
  intro qs
  induction qs with
  | nil => intro j hj _; simp at hj
  | cons q rest ih =>
    intro j hj hne
    cases j with
    | zero =>
      simp only [List.getD_cons_zero, List.set_cons_zero] at hne ⊢
      obtain ⟨f, t, hft⟩ := List.exists_cons_of_ne_nil hne
      simp only [listTotal, List.map_cons, List.sum_cons, hft, List.tail_cons,
        List.length_cons]
      omega
    | succ j0 =>
      simp only [List.getD_cons_succ, List.set_cons_succ] at hne ⊢
      have hrec := ih j0 (by simpa using hj) hne
      simp only [listTotal, List.map_cons, List.sum_cons] at hrec ⊢
      omega

theorem Completed_iff (m : MockTransport) :
    Completed m = true ↔
      ((∀ q ∈ m.queues, q.roundTripFuncs = []) ∧ unmatchRequests m = []) := by
  simp only [Completed, Bool.and_eq_true, beq_iff_eq, listTotal]
  constructor
  · rintro ⟨h1, h2⟩
    refine ⟨?_, List.length_eq_zero.mp h2⟩
    intro q hq
    have := List.sum_eq_zero_iff.mp h1 q.roundTripFuncs.length (by
      exact List.mem_map.mpr ⟨q, hq, rfl⟩)
    exact List.length_eq_zero.mp this
  · rintro ⟨h1, h2⟩
    constructor
    · apply List.sum_eq_zero_iff.mpr
      intro x hx
      obtain ⟨q, hq, hxq⟩ := List.mem_map.mp hx
      rw [← hxq, h1 q hq]
      rfl
    · rw [h2]
      rfl

end rtq

namespace rtqueue

theorem matchBody_restores {q : RoundTripQueue} {req : Request} {b : Bool}
    {req' : Request} {q' : RoundTripQueue}
    (h : matchBody q req = .ok (b, req', q')) :
    req' = req ∧ q' = q := by
  cases hqb : q.request.body with
  | none =>
    simp only [matchBody, hqb] at h
    simp only [Except.ok.injEq, Prod.mk.injEq] at h
    exact ⟨h.2.1.symm, h.2.2.symm⟩
  | some qb =>
    simp only [matchBody, hqb, io_ReadAll] at h
    cases hd : req.body.data with
    | error e => rw [hd] at h; exact absurd h (by simp)
    | ok bl =>
      rw [hd] at h
      cases hq : qb.data with
      | error e => rw [hq] at h; exact absurd h (by simp)
      | ok br =>
        rw [hq] at h
        simp only [Except.ok.injEq, Prod.mk.injEq] at h
        obtain ⟨_, h2, h3⟩ := h
        constructor
        · have hbody : (⟨.ok bl⟩ : Reader) = req.body := by rw [← hd]
          rw [← h2, hbody]
        · have hqbody : (⟨.ok br⟩ : Reader) = qb := by rw [← hq]
          rw [← h3, hqbody, ← hqb]

theorem queuePred_true_nonempty {q : RoundTripQueue} {req : Request} {req' : Request}
    {q' : RoundTripQueue}
    (h : queuePred q req = .ok (true, req', q')) :
    q'.roundTrips ≠ [] := by
  simp only [queuePred] at h
  split at h
  · exact absurd h (by simp)
  · split at h
    · exact absurd h (by simp)
    · split at h
      · exact absurd h (by simp)
      · split at h
        · exact absurd h (by simp)
        · split at h
          · exact absurd h (by simp)
          · split at h
            · exact absurd h (by simp)
            · split at h
              · exact absurd h (by simp)
              · rename_i hlen
                simp only [Except.ok.injEq, Prod.mk.injEq] at h
                obtain ⟨_, _, h3⟩ := h
                rw [← h3]
                intro hnil
                exact hlen (by simp [hnil])

theorem find_some_nonempty_rtqueue :
    ∀ (ql : List RoundTripQueue) (req : Request) (j : Nat) (r' : Request)
      (ql' : List RoundTripQueue),
      find ql req = .ok (some j, r', ql') →
      (ql'.getD j emptyQueue).roundTrips ≠ [] := by
  intro ql
  induction ql with
  | nil => intro req j r' ql' h; simp [find] at h
  | cons q qs ih =>
    intro req j r' ql' h
    simp only [find] at h
    split at h
    · exact absurd h (by simp)
    · rename_i req2 q2 heq
      simp only [Except.ok.injEq, Prod.mk.injEq, Option.some.injEq] at h
      obtain ⟨h1, _, h3⟩ := h
      subst h1
      rw [← h3]
      simp only [List.getD_cons_zero]
      exact queuePred_true_nonempty heq
    · rename_i req2 q2 heq
      split at h
      · exact absurd h (by simp)
      · rename_i o r3 qs3 heq2
        cases o with
        | none => exact absurd h (by simp)
        | some j0 =>
          simp only [Except.ok.injEq, Prod.mk.injEq, Option.map_some',
            Option.some.injEq] at h
          obtain ⟨h1, _, h3⟩ := h
          subst h1
          rw [← h3]
          simp only [List.getD_cons_succ]
          exact ih req2 j0 r3 qs3 heq2

theorem queuePred_exhausted {q : RoundTripQueue} {req : Request}
    (hq : q.roundTrips = [])
    (hnb : ∀ e, matchBody q req ≠ .error e) :
    queuePred q req = .ok (false, req, q) := by
  simp only [queuePred]
  split
  · rfl
  · split
    · rfl
    · split
      · rfl
      · split
        · rfl
        · cases hm : matchBody q req with
          | error e => exact absurd hm (hnb e)
          | ok p =>
            obtain ⟨b, r2, q2⟩ := p
            obtain ⟨hr, hq2⟩ := matchBody_restores hm
            subst hr
            subst hq2
            cases b with
            | false => simp
            | true => simp [hq]

theorem find_skip_rtqueue (q : RoundTripQueue) (qs : List RoundTripQueue)
    (req : Request) (hq : q.roundTrips = [])
    (hnb : ∀ e, matchBody q req ≠ .error e) :
    find (q :: qs) req = shiftCons q (find qs req) := by
  simp only [find, queuePred_exhausted hq hnb]
  cases hf : find qs req with
  | error e => simp [shiftCons]
  | ok p =>
    obtain ⟨o, r2, qs2⟩ := p
    simp [shiftCons]

theorem matchBody_read_error {q : RoundTripQueue} {req : Request} {qb : Reader}
    {e : String} (hq : q.request.body = some qb) (h : req.body.data = .error e) :
    matchBody q req = .error e := by
  simp [matchBody, hq, io_ReadAll, h]

theorem RoundTrip_find_panics (qs : RoundTripQueues) (req : Request) (e : String)
    (h : find ((List.lookup (origin req.url) qs.queues).getD []) req = .error e) :
    RoundTrip qs req = (.error (.goPanic e), qs) := by
  simp [RoundTrip, h]

theorem RoundTrip_unregistered (qs : RoundTripQueues) (req : Request)
    (h : List.lookup (origin req.url) qs.queues = none) :
    RoundTrip qs req = (.error (.goError "mock is not registered"),
      { qs with unmatchRequests := qs.unmatchRequests ++ [req] }) := by
  simp [RoundTrip, h, find]

theorem queuePred_restores {q : RoundTripQueue} {req : Request} {b : Bool}
    {r' : Request} {q' : RoundTripQueue}
    (h : queuePred q req = .ok (b, r', q')) : r' = req ∧ q' = q := by
  simp only [queuePred] at h
  split at h
  · simp only [Except.ok.injEq, Prod.mk.injEq] at h
    exact ⟨h.2.1.symm, h.2.2.symm⟩
  · split at h
    · simp only [Except.ok.injEq, Prod.mk.injEq] at h
      exact ⟨h.2.1.symm, h.2.2.symm⟩
    · split at h
      · simp only [Except.ok.injEq, Prod.mk.injEq] at h
        exact ⟨h.2.1.symm, h.2.2.symm⟩
      · split at h
        · simp only [Except.ok.injEq, Prod.mk.injEq] at h
          exact ⟨h.2.1.symm, h.2.2.symm⟩
        · split at h
          · exact absurd h (by simp)
          · rename_i b0 r0 q0 heq
            obtain ⟨hr0, hq0⟩ := matchBody_restores heq
            split at h
            · simp only [Except.ok.injEq, Prod.mk.injEq] at h
              exact ⟨h.2.1.symm.trans hr0, h.2.2.symm.trans hq0⟩
            · split at h
              · simp only [Except.ok.injEq, Prod.mk.injEq] at h
                exact ⟨h.2.1.symm.trans hr0, h.2.2.symm.trans hq0⟩
              · simp only [Except.ok.injEq, Prod.mk.injEq] at h
                exact ⟨h.2.1.symm.trans hr0, h.2.2.symm.trans hq0⟩

theorem find_restores :
    ∀ (ql : List RoundTripQueue) (req : Request) (o : Option Nat) (r' : Request)
      (ql' : List RoundTripQueue),
      find ql req = .ok (o, r', ql') → r' = req ∧ ql' = ql := by
  intro ql
  induction ql with
  | nil =>
    intro req o r' ql' h
    simp only [find, Except.ok.injEq, Prod.mk.injEq] at h
    exact ⟨h.2.1.symm, h.2.2.symm⟩
  | cons q qs ih =>
    intro req o r' ql' h
    simp only [find] at h
    split at h
    · exact absurd h (by simp)
    · rename_i r0 q0 heq
      obtain ⟨hr0, hq0⟩ := queuePred_restores heq
      simp only [Except.ok.injEq, Prod.mk.injEq] at h
      obtain ⟨_, h2, h3⟩ := h
      constructor
      · rw [← h2]
        exact hr0
      · rw [← h3, hq0]
    · rename_i r0 q0 heq
      obtain ⟨hr0, hq0⟩ := queuePred_restores heq
      split at h
      · exact absurd h (by simp)
      · rename_i o2 r2 qs2 heq2
        obtain ⟨hr2, hq2⟩ := ih r0 o2 r2 qs2 heq2
        simp only [Except.ok.injEq, Prod.mk.injEq] at h
        obtain ⟨_, h2, h3⟩ := h
        constructor
        · rw [← h2, hr2]
          exact hr0
        · rw [← h3, hq0, hq2]

theorem find_some_lt_rtqueue :
    ∀ (ql : List RoundTripQueue) (req : Request) (j : Nat) (r' : Request)
      (ql' : List RoundTripQueue),
      find ql req = .ok (some j, r', ql') → j < ql.length := by
  intro ql
  induction ql with
  | nil => intro req j r' ql' h; simp [find] at h
  | cons q qs ih =>
    intro req j r' ql' h
    simp only [find] at h
    split at h
    · exact absurd h (by simp)
    · simp only [Except.ok.injEq, Prod.mk.injEq, Option.some.injEq] at h
      obtain ⟨h1, _⟩ := h
      simp only [List.length_cons]
      omega
    · rename_i r0 q0 heq
      split at h
      · exact absurd h (by simp)
      · rename_i o2 r2 qs2 heq2
        cases o2 with
        | none => exact absurd h (by simp)
        | some j0 =>
          simp only [Except.ok.injEq, Prod.mk.injEq, Option.map_some',
            Option.some.injEq] at h
          obtain ⟨h1, _⟩ := h
          have := ih r0 j0 r2 qs2 heq2
          simp only [List.length_cons]
          omega

theorem getD_set_ne_q (l : List RoundTripQueue) (j i : Nat) (a : RoundTripQueue)
    (hij : j ≠ i) :
    (l.set j a).getD i emptyQueue = l.getD i emptyQueue := by
  simp [List.getD_eq_getElem?_getD, List.getElem?_set_ne hij]

theorem getD_set_self_q (l : List RoundTripQueue) (j : Nat) (a : RoundTripQueue)
    (hj : j < l.length) :
    (l.set j a).getD j emptyQueue = a := by
  simp [List.getD_eq_getElem?_getD, List.getElem?_set_eq_of_lt a hj]

theorem lookup_setEntry_self :
    ∀ (m : List (String × List RoundTripQueue)) (key : String)
      (v : List RoundTripQueue),
      List.lookup key (setEntry m key v) = some v := by
  intro m key v
  induction m with
  | nil => simp [setEntry, List.lookup]
  | cons p rest ih =>
    obtain ⟨k, w⟩ := p
    by_cases hk : k = key
    · subst hk
      simp [setEntry, List.lookup]
    · have hbeq : (key == k) = false :=
        beq_eq_false_iff_ne.mpr (fun hh => hk hh.symm)
      simp [setEntry, hk, List.lookup, hbeq, ih]

theorem lookup_setEntry_ne :
    ∀ (m : List (String × List RoundTripQueue)) (k0 key : String)
      (v : List RoundTripQueue), k0 ≠ key →
      List.lookup key (setEntry m k0 v) = List.lookup key m := by
  intro m k0 key v hne
  induction m with
  | nil =>
    have hbeq : (key == k0) = false :=
      beq_eq_false_iff_ne.mpr (fun hh => hne hh.symm)
    simp [setEntry, List.lookup, hbeq]
  | cons p rest ih =>
    obtain ⟨k, w⟩ := p
    by_cases hk : k = k0
    · subst hk
      have hbeq : (key == k) = false :=
        beq_eq_false_iff_ne.mpr (fun hh => hne hh.symm)
      simp [setEntry, List.lookup, hbeq]
    · simp [setEntry, hk, List.lookup, ih]

theorem RoundTrip_find_none_rtqueue (qs : RoundTripQueues) (req : Request)
    (r' : Request) (ql' : List RoundTripQueue)
    (h : find ((List.lookup (origin req.url) qs.queues).getD []) req =
      .ok (none, r', ql')) :
    RoundTrip qs req = (.error (.goError "mock is not registered"),
      { qs with unmatchRequests := qs.unmatchRequests ++ [r'] }) := by
  simp [RoundTrip, h]

theorem RoundTrip_state_some (qs : RoundTripQueues) (req : Request) (i : Nat)
    (r' : Request) (ql' : List RoundTripQueue)
    (h : find ((List.lookup (origin req.url) qs.queues).getD []) req =
      .ok (some i, r', ql')) :
    (RoundTrip qs req).2 = { qs with
      queues := (setEntry qs.queues (origin req.url)
        (ql'.set i { ql'.getD i emptyQueue with
          roundTrips := (ql'.getD i emptyQueue).roundTrips.tail })) } := by
  simp [RoundTrip, h]

theorem servedFromQ_take :
    ∀ (reqs : List Request) (qs : RoundTripQueues) (key : String) (i : Nat),
      servedFromQ key i qs reqs =
        ((((List.lookup key qs.queues).getD []).getD i emptyQueue).roundTrips).take
          (servedFromQ key i qs reqs).length := by
  intro reqs
  induction reqs with
  | nil => intro qs key i; simp [servedFromQ]
  | cons req rs ih =>
    intro qs key i
    cases hf : find ((List.lookup (origin req.url) qs.queues).getD []) req with
    | error e =>
      simp only [servedFromQ, RoundTrip_find_panics qs req e hf, hf]
      exact ih qs key i
    | ok p =>
      obtain ⟨o, r', ql'⟩ := p
      cases o with
      | none =>
        simp only [servedFromQ, RoundTrip_find_none_rtqueue qs req r' ql' hf, hf]
        exact ih _ key i
      | some j =>
        obtain ⟨hr', hql'⟩ := find_restores _ req (some j) r' ql' hf
        have hlt : j < ql'.length := by
          rw [hql']
          exact find_some_lt_rtqueue _ req j r' ql' hf
        have hne := find_some_nonempty_rtqueue _ req j r' ql' hf
        have hstate := RoundTrip_state_some qs req j r' ql' hf
        have hih := ih
          { qs with
            queues := (setEntry qs.queues (origin req.url)
              (ql'.set j { ql'.getD j emptyQueue with
                roundTrips := (ql'.getD j emptyQueue).roundTrips.tail })) } key i
        rw [show ({ qs with
            queues := (setEntry qs.queues (origin req.url)
              (ql'.set j { ql'.getD j emptyQueue with
                roundTrips := (ql'.getD j emptyQueue).roundTrips.tail })) }
            : RoundTripQueues).queues = (setEntry qs.queues (origin req.url)
              (ql'.set j { ql'.getD j emptyQueue with
                roundTrips := (ql'.getD j emptyQueue).roundTrips.tail }))
          from rfl] at hih
        by_cases hk : origin req.url = key
        · subst hk
          rw [lookup_setEntry_self] at hih
          simp only [Option.getD_some] at hih
          by_cases hj : j = i
          · subst hj
            obtain ⟨f, t, hft⟩ := List.exists_cons_of_ne_nil hne
            rw [getD_set_self_q _ _ _ hlt] at hih
            simp only [servedFromQ, hstate, hf, and_self, if_true]
            rw [← hql']
            simp only [hft] at hih ⊢
            simp only [List.tail_cons, List.headD_cons] at hih ⊢
            rw [List.length_cons, List.take_succ_cons]
            exact congrArg (f :: ·) hih
          · rw [getD_set_ne_q _ _ _ _ hj] at hih
            simp only [servedFromQ, hstate, hf,
              if_neg (fun hh : _ ∧ j = i => hj hh.2)]
            rw [← hql']
            exact hih
        · rw [lookup_setEntry_ne qs.queues (origin req.url) key _ hk] at hih
          simp only [servedFromQ, hstate, hf,
            if_neg (fun hh : origin req.url = key ∧ _ => hk hh.1)]
          exact hih

theorem Completed_iff_rtqueue (qs : RoundTripQueues) :
    Completed qs = true ↔
      ((∀ p ∈ qs.queues, ∀ q ∈ p.2, q.roundTrips = []) ∧ qs.unmatchRequests = []) := by
  simp only [Completed, Bool.and_eq_true, beq_iff_eq]
  constructor
  · rintro ⟨h1, h2⟩
    refine ⟨?_, List.length_eq_zero.mp h2⟩
    intro p hp q hq
    have hmem : q.roundTrips.length ∈
        (((qs.queues.map (fun p => p.2)).flatten).map (fun q => q.roundTrips.length)) := by
      apply List.mem_map.mpr
      refine ⟨q, ?_, rfl⟩
      apply List.mem_flatten.mpr
      exact ⟨p.2, List.mem_map.mpr ⟨p, hp, rfl⟩, hq⟩
    exact List.length_eq_zero.mp (List.sum_eq_zero_iff.mp h1 _ hmem)
  · rintro ⟨h1, h2⟩
    constructor
    · apply List.sum_eq_zero_iff.mpr
      intro x hx
      obtain ⟨q, hq, hxq⟩ := List.mem_map.mp hx
      obtain ⟨l, hl, hql⟩ := List.mem_flatten.mp hq
      obtain ⟨p, hp, hpl⟩ := List.mem_map.mp hl
      rw [← hxq, h1 p hp q (by rw [hpl]; exact hql)]
      rfl
    · rw [h2]
      rfl

end rtqueue

/-! Claim theorems. -/

/-- Claim C1: producers enqueued on one queue are served in strict FIFO
order, in both variants.  Over any request sequence (any number of
non-matching requests interleaved, in any position), if a queue holds
producers `[P1, P2, P3]` — the queue at index `i` of the rtq transport, or
at index `i` of origin `key` in the rtqueue transport — and exactly three
intercepts are served from that queue, the producers handed out are `P1`,
then `P2`, then `P3`, in that order. -/
theorem C1_fifo_order :
    (∀ (m : rtq.MockTransport) (i : Nat) (reqs : List Request)
        (P1 P2 P3 : RoundTripFn),
        (m.queues.getD i rtq.emptyQueue).roundTripFuncs = [P1, P2, P3] →
        (rtq.servedFrom i m reqs).length = 3 →
        rtq.servedFrom i m reqs = [P1, P2, P3]) ∧
    (∀ (qs : rtqueue.RoundTripQueues) (key : String) (i : Nat)
        (reqs : List Request) (P1 P2 P3 : RoundTripFn),
        ((((List.lookup key qs.queues).getD []).getD i
            rtqueue.emptyQueue).roundTrips) = [P1, P2, P3] →
        (rtqueue.servedFromQ key i qs reqs).length = 3 →
        rtqueue.servedFromQ key i qs reqs = [P1, P2, P3]) := by
  constructor
  · intro m i reqs P1 P2 P3 hq hn
    have h := rtq.servedFrom_take reqs m i
    rw [hn, hq] at h
    rw [show List.take 3 [P1, P2, P3] = [P1, P2, P3] from rfl] at h
    exact h
  · intro qs key i reqs P1 P2 P3 hq hn
    have h := rtqueue.servedFromQ_take reqs qs key i
    rw [hn, hq] at h
    rw [show List.take 3 [P1, P2, P3] = [P1, P2, P3] from rfl] at h
    exact h

/-- Witness for C1: concrete three-producer queues of both variants,
drained through request sequences with non-matching requests interleaved,
hand out their producers in FIFO order. -/
theorem C1_fifo_order_witness :
    (c1m.queues.getD 0 rtq.emptyQueue).roundTripFuncs = [c1f1, c1f2, c1f3] ∧
    (rtq.servedFrom 0 c1m c1reqs).length = 3 ∧
    rtq.servedFrom 0 c1m c1reqs = [c1f1, c1f2, c1f3] ∧
    ((((List.lookup "http://example.com" c1T.queues).getD []).getD 0
        rtqueue.emptyQueue).roundTrips) = [c1f1, c1f2, c1f3] ∧
    (rtqueue.servedFromQ "http://example.com" 0 c1T c1qreqs).length = 3 ∧
    rtqueue.servedFromQ "http://example.com" 0 c1T c1qreqs = [c1f1, c1f2, c1f3] :=
  ⟨rfl, rfl, C1_fifo_order.1 c1m 0 c1reqs c1f1 c1f2 c1f3 rfl rfl,
   rfl, rfl,
   C1_fifo_order.2 c1T "http://example.com" 0 c1qreqs c1f1 c1f2 c1f3 rfl rfl⟩

/-- Claim C6: the completion check returns true exactly when every queue's
FIFO (of every origin, in the rtqueue variant) is empty and the
unmatched-request list is empty. -/
theorem C6_completed :
    (∀ m : rtq.MockTransport, rtq.Completed m = true ↔
      ((∀ q ∈ m.queues, q.roundTripFuncs = []) ∧ rtq.unmatchRequests m = [])) ∧
    (∀ qs : rtqueue.RoundTripQueues, rtqueue.Completed qs = true ↔
      ((∀ p ∈ qs.queues, ∀ q ∈ p.2, q.roundTrips = []) ∧ qs.unmatchRequests = [])) :=
  ⟨rtq.Completed_iff, rtqueue.Completed_iff_rtqueue⟩

/-- Witness for C6: fresh transports of both variants are complete. -/
theorem C6_completed_witness :
    rtq.Completed (rtq.NewTransport []) = true ∧
    rtqueue.Completed rtqueue.NewTransport = true :=
  ⟨(C6_completed.1 (rtq.NewTransport [])).mpr
     ⟨fun q hq => absurd hq (List.not_mem_nil q), rfl⟩,
   (C6_completed.2 rtqueue.NewTransport).mpr
     ⟨fun p hp => absurd hp (List.not_mem_nil p), rfl⟩⟩

/-- Claim C8: the built-in body-inspecting criteria restore the request
body: whenever `BodyString`'s criterion (rtq) or `matchBody` (rtqueue)
returns, the request body afterwards holds exactly the bytes it held before
the criterion ran (for rtq the whole request is unchanged; rtqueue also
restores the queue's own pattern body). -/
theorem C8_body_restored :
    (∀ (s : String) (req : Request) (b : Bool) (req' : Request),
        rtq.bodyStringMatch s req = .ok (b, req') → req' = req) ∧
    (∀ (q : rtqueue.RoundTripQueue) (req : Request) (b : Bool) (req' : Request)
        (q' : rtqueue.RoundTripQueue),
        rtqueue.matchBody q req = .ok (b, req', q') → req'.body = req.body ∧ q' = q) := by
  constructor
  · intro s req b req' h
    exact rtq.bodyStringMatch_restores h
  · intro q req b req' q' h
    obtain ⟨h1, h2⟩ := rtqueue.matchBody_restores h
    exact ⟨by rw [h1], h2⟩

/-- Witness for C8: a concrete body criterion run on a readable body leaves
the request body unchanged in both variants. -/
theorem C8_body_restored_witness :
    rtq.bodyStringMatch "hello" c8req = .ok (true, c8req) ∧
    rtqueue.matchBody c8q c8req = .ok (true, c8req, c8q) ∧
    c8req.body = c8req.body :=
  ⟨rfl, rfl, (C8_body_restored.2 c8q c8req true c8req c8q rfl).1⟩

/-- Claim C10: in the rtq variant the scan never evaluates the criteria of
an exhausted queue: replacing an exhausted queue's criteria by arbitrary
other criteria (the queue staying exhausted) leaves the whole scan result —
found index, propagated error, and request mutation alike — unchanged, so
an exhausted queue's criteria can neither error nor touch the request. -/
theorem C10_exhausted_not_evaluated (l1 : List rtq.RoundTripQueue)
    (q q' : rtq.RoundTripQueue) (l2 : List rtq.RoundTripQueue) (req : Request)
    (hq : q.roundTripFuncs = []) (hq' : q'.roundTripFuncs = []) :
    rtq.find (l1 ++ q :: l2) req = rtq.find (l1 ++ q' :: l2) req :=
  rtq.find_exhausted_replace l1 q q' l2 req hq hq'

/-- Witness for C10: replacing an exhausted queue's criteria by an erroring
criterion changes nothing, and the later queue is selected. -/
theorem C10_exhausted_not_evaluated_witness :
    c10q.roundTripFuncs = [] ∧ c10qErr.roundTripFuncs = [] ∧
    rtq.find ([] ++ c10q :: [c10tail]) c10req =
      rtq.find ([] ++ c10qErr :: [c10tail]) c10req ∧
    rtq.find [c10q, c10tail] c10req = .ok (some 1, c10req) :=
  ⟨rfl, rfl, C10_exhausted_not_evaluated [] c10q c10qErr [c10tail] c10req rfl rfl, rfl⟩

/-- Claim C2 counterexample: in the rtqueue variant an exhausted queue can
block a later same-origin queue.  With an exhausted body-matching queue
registered in front of a criteria-free serving queue, a request whose body
reader fails makes the scan panic inside the exhausted queue's `matchBody`,
so no queue is selected; without the exhausted queue in front, the very
same request is served by the later queue. -/
theorem C2_counterexample :
    rtqueue.find [c2qEx, c2q2] c2req = .error "boom" ∧
    rtqueue.find [c2q2] c2req = .ok (some 0, c2req, [c2q2]) ∧
    (rtqueue.RoundTrip c2T c2req).1 = .error (.goPanic "boom") :=
  ⟨rfl, rfl, rfl⟩

/-- Claim C2 as amended: a queue with an empty FIFO is never selected, in
either variant; in the rtq variant the scan skips it outright, and in the
rtqueue variant the scan passes over it and reaches later queues provided
evaluating its criteria does not panic (its `matchBody` is still run and
panics on a body-read failure, aborting the whole scan). -/
theorem C2_exhausted_skip :
    (∀ (qs : List rtq.RoundTripQueue) (req : Request) (j : Nat) (r' : Request),
        rtq.find qs req = .ok (some j, r') →
        (qs.getD j rtq.emptyQueue).roundTripFuncs ≠ []) ∧
    (∀ (q : rtq.RoundTripQueue) (qs : List rtq.RoundTripQueue) (req : Request),
        q.roundTripFuncs = [] →
        rtq.find (q :: qs) req = rtq.shiftIdx (rtq.find qs req)) ∧
    (∀ (ql : List rtqueue.RoundTripQueue) (req : Request) (j : Nat) (r' : Request)
        (ql' : List rtqueue.RoundTripQueue),
        rtqueue.find ql req = .ok (some j, r', ql') →
        (ql'.getD j rtqueue.emptyQueue).roundTrips ≠ []) ∧
    (∀ (q : rtqueue.RoundTripQueue) (qs : List rtqueue.RoundTripQueue) (req : Request),
        q.roundTrips = [] → (∀ e, rtqueue.matchBody q req ≠ .error e) →
        rtqueue.find (q :: qs) req = rtqueue.shiftCons q (rtqueue.find qs req)) :=
  ⟨rtq.find_some_nonempty, rtq.find_skip, rtqueue.find_some_nonempty_rtqueue,
   rtqueue.find_skip_rtqueue⟩

/-- Witness for the amended C2: concrete exhausted queues of both variants
are skipped by the scan. -/
theorem C2_exhausted_skip_witness :
    c2qExRtq.roundTripFuncs = [] ∧
    rtq.find [c2qExRtq] c2okreq = rtq.shiftIdx (rtq.find [] c2okreq) ∧
    c2qEx.roundTrips = [] ∧
    rtqueue.find [c2qEx] c2okreq = rtqueue.shiftCons c2qEx (rtqueue.find [] c2okreq) :=
  ⟨rfl, C2_exhausted_skip.2.1 c2qExRtq [] c2okreq rfl, rfl,
   C2_exhausted_skip.2.2.2 c2qEx [] c2okreq rfl (fun e h => by
     rw [show rtqueue.matchBody c2qEx c2okreq = .ok (true, c2okreq, c2qEx) from rfl] at h
     exact Except.noConfusion h)⟩

/-- Claim C4 counterexample, both variants.  rtq: an intercept whose
matching fails with a criterion error returns that error to the caller yet
appends no audit record at all.  rtqueue: a successful intercept returns
its response yet appends no record anywhere — that variant records
unmatched requests only, so there is no matched=true record to append.
Either way the claim that every intercept call appends exactly one audit
record is refuted. -/
theorem C4_counterexample :
    (rtq.RoundTrip c4m c4req).1 = .error (.goError "boom") ∧
    (rtq.RoundTrip c4m c4req).2.requestLogs.length = 0 ∧
    (rtqueue.RoundTrip c4T c4qreq).1 =
      .ok { statusCode := 200, header := [], body := ⟨.ok "x"⟩,
            request := some c4qreq } ∧
    (rtqueue.RoundTrip c4T c4qreq).2.unmatchRequests = [] :=
  ⟨rfl, rfl, rfl, rfl⟩

/-- Claim C4 as amended, covering both variants.  rtq: an intercept that
fails with a criterion error appends no audit record and changes nothing;
an intercept completing the scan appends exactly one record (matched on
success, unmatched on no-match); and exactly one FIFO pop happens per
successful intercept — the winning queue loses its head, every other queue
is untouched, and the total of remaining entries drops by exactly one.
rtqueue: the only record kept is the unmatched-request list — a panic
during matching changes nothing, a no-match appends exactly one unmatched
request and pops nothing, and a successful intercept appends no record and
performs exactly one pop, writing back the winning origin's list with just
its selected queue's head removed. -/
theorem C4_side_effects :
    (∀ (m : rtq.MockTransport) (req : Request) (e : Failure),
        rtq.find m.queues req = .error e → rtq.dequeue m req = (.error e, m)) ∧
    (∀ (m : rtq.MockTransport) (req r' : Request),
        rtq.find m.queues req = .ok (none, r') →
        (rtq.dequeue m req).1 = .error (.goError "mock is not registered") ∧
        (rtq.dequeue m req).2.requestLogs =
          m.requestLogs ++ [{ matched := false, request := r' }] ∧
        (rtq.dequeue m req).2.queues = m.queues) ∧
    (∀ (m : rtq.MockTransport) (req : Request) (j : Nat) (r' : Request),
        rtq.find m.queues req = .ok (some j, r') →
        (rtq.dequeue m req).2.requestLogs =
          m.requestLogs ++ [{ matched := true, request := r' }] ∧
        ((rtq.dequeue m req).2.queues.getD j rtq.emptyQueue).roundTripFuncs =
          ((m.queues.getD j rtq.emptyQueue).roundTripFuncs).tail ∧
        (∀ k, k ≠ j → (rtq.dequeue m req).2.queues.getD k rtq.emptyQueue =
          m.queues.getD k rtq.emptyQueue) ∧
        rtq.listTotal (rtq.dequeue m req).2.queues + 1 = rtq.listTotal m.queues) ∧
    (∀ (qs : rtqueue.RoundTripQueues) (req : Request) (e : String),
        rtqueue.find ((List.lookup (rtqueue.origin req.url) qs.queues).getD []) req =
          .error e →
        rtqueue.RoundTrip qs req = (.error (.goPanic e), qs)) ∧
    (∀ (qs : rtqueue.RoundTripQueues) (req : Request) (r' : Request)
        (ql' : List rtqueue.RoundTripQueue),
        rtqueue.find ((List.lookup (rtqueue.origin req.url) qs.queues).getD []) req =
          .ok (none, r', ql') →
        rtqueue.RoundTrip qs req = (.error (.goError "mock is not registered"),
          { qs with unmatchRequests := qs.unmatchRequests ++ [r'] })) ∧
    (∀ (qs : rtqueue.RoundTripQueues) (req : Request) (i : Nat) (r' : Request)
        (ql' : List rtqueue.RoundTripQueue),
        rtqueue.find ((List.lookup (rtqueue.origin req.url) qs.queues).getD []) req =
          .ok (some i, r', ql') →
        (rtqueue.RoundTrip qs req).2.unmatchRequests = qs.unmatchRequests ∧
        (rtqueue.RoundTrip qs req).2.queues = (rtqueue.setEntry qs.queues
          (rtqueue.origin req.url)
          (ql'.set i { ql'.getD i rtqueue.emptyQueue with
            roundTrips := (ql'.getD i rtqueue.emptyQueue).roundTrips.tail }))) := by
  refine ⟨?_, ?_, ?_, ?_, ?_, ?_⟩
  · intro m req e h
    exact rtq.dequeue_find_error h
  · intro m req r' h
    rw [rtq.dequeue_find_none h]
    exact ⟨rfl, rfl, rfl⟩
  · intro m req j r' h
    have hlt := rtq.find_some_lt m.queues req j r' h
    have hne := rtq.find_some_nonempty m.queues req j r' h
    refine ⟨?_, ?_, ?_, ?_⟩
    · simp only [rtq.dequeue_find_some h]
    · simp only [rtq.dequeue_find_some h]
      rw [rtq.getD_set_self _ _ _ hlt]
    · intro k hk
      simp only [rtq.dequeue_find_some h]
      exact rtq.getD_set_ne _ _ _ _ (fun hh => hk hh.symm)
    · simp only [rtq.dequeue_find_some h]
      exact rtq.listTotal_set_pop m.queues j hlt hne
  · intro qs req e h
    exact rtqueue.RoundTrip_find_panics qs req e h
  · intro qs req r' ql' h
    exact rtqueue.RoundTrip_find_none_rtqueue qs req r' ql' h
  · intro qs req i r' ql' h
    constructor
    · rw [rtqueue.RoundTrip_state_some qs req i r' ql' h]
    · rw [rtqueue.RoundTrip_state_some qs req i r' ql' h]

/-- Witness for the amended C4: a concrete unmatched rtq intercept appends
one unmatched record and pops nothing, and a concrete successful rtqueue
intercept appends no record. -/
theorem C4_side_effects_witness :
    rtq.find c4wm.queues c4wreq = .ok (none, c4wreq) ∧
    (rtq.dequeue c4wm c4wreq).1 = .error (.goError "mock is not registered") ∧
    (rtq.dequeue c4wm c4wreq).2.requestLogs =
      c4wm.requestLogs ++ [{ matched := false, request := c4wreq }] ∧
    (rtq.dequeue c4wm c4wreq).2.queues = c4wm.queues ∧
    (rtqueue.RoundTrip c4T c4qreq).2.unmatchRequests = c4T.unmatchRequests := by
  have h1 := C4_side_effects.2.1 c4wm c4wreq c4wreq rfl
  have h2 := (C4_side_effects.2.2.2.2.2 c4T c4qreq 0 c4qreq
    [rtqueue.New.ResponseSimple 200 "x"] rfl).1
  exact ⟨rfl, h1.1, h1.2.1, h1.2.2, h2⟩

/-- Claim C5 counterexample: a request whose origin has no configured
queues fails with exactly the same generic "mock is not registered" error
value as a request whose origin is registered but matched by no queue — in
both variants no distinct OriginNotRegistered error exists. -/
theorem C5_counterexample :
    (rtqueue.RoundTrip c5T c5reqB).1 = .error (.goError "mock is not registered") ∧
    (rtqueue.RoundTrip c5T c5reqA).1 = .error (.goError "mock is not registered") ∧
    (rtqueue.RoundTrip c5T c5reqB).1 = (rtqueue.RoundTrip c5T c5reqA).1 ∧
    (rtq.RoundTrip c5m c5reqB).1 = .error (.goError "mock is not registered") :=
  ⟨rfl, rfl, rfl, rfl⟩

/-- Claim C5 as amended: when the request's origin has no configured queues
the intercept fails with the same generic mock-is-not-registered error used
for a no-match, and the request is recorded as unmatched — the failure is
surfaced to the caller but is not distinguishable from MockNotRegistered. -/
theorem C5_unregistered_origin (qs : rtqueue.RoundTripQueues) (req : Request)
    (h : List.lookup (rtqueue.origin req.url) qs.queues = none) :
    rtqueue.RoundTrip qs req = (.error (.goError "mock is not registered"),
      { qs with unmatchRequests := qs.unmatchRequests ++ [req] }) :=
  rtqueue.RoundTrip_unregistered qs req h

/-- Witness for the amended C5: a concrete request to an unregistered
origin fails with the generic error and is recorded as unmatched. -/
theorem C5_unregistered_origin_witness :
    List.lookup (rtqueue.origin c5reqB.url) c5T.queues = none ∧
    rtqueue.RoundTrip c5T c5reqB = (.error (.goError "mock is not registered"),
      { c5T with unmatchRequests := c5T.unmatchRequests ++ [c5reqB] }) :=
  ⟨rfl, C5_unregistered_origin c5T c5reqB rfl⟩

/-- Claim C7 counterexample: in the rtqueue variant a body-read failure
during matching is not returned as an error value: `matchBody` panics, and
the intercept surfaces a panic (modelled as `goPanic`), not a transport
error return. -/
theorem C7_counterexample :
    (rtqueue.RoundTrip c7T c7req).1 = .error (.goPanic "read failed") :=
  rfl

/-- Claim C7 as amended: a body-read failure during matching is never
swallowed and never turned into a mere non-match, but the two variants
surface it differently: the rtq `BodyString` criterion returns it as an
error that the scan and the intercept propagate to the caller, while the
rtqueue `matchBody` panics with it, aborting the intercept. -/
theorem C7_body_read_failure :
    (∀ (s : String) (req : Request) (e : String), req.body.data = .error e →
        rtq.bodyStringMatch s req = .error (.goError e)) ∧
    (∀ (m : rtq.MockTransport) (req : Request) (f : Failure),
        rtq.find m.queues req = .error f → rtq.RoundTrip m req = (.error f, m)) ∧
    (∀ (q : rtqueue.RoundTripQueue) (req : Request) (qb : Reader) (e : String),
        q.request.body = some qb → req.body.data = .error e →
        rtqueue.matchBody q req = .error e) ∧
    (∀ (qs : rtqueue.RoundTripQueues) (req : Request) (e : String),
        rtqueue.find ((List.lookup (rtqueue.origin req.url) qs.queues).getD []) req =
          .error e →
        rtqueue.RoundTrip qs req = (.error (.goPanic e), qs)) :=
  ⟨fun _ _ _ h => rtq.bodyStringMatch_read_error h,
   fun _ _ _ h => rtq.RoundTrip_find_error h,
   fun _ _ _ _ hq h => rtqueue.matchBody_read_error hq h,
   rtqueue.RoundTrip_find_panics⟩

/-- Witness for the amended C7: a concrete failing body reader makes the
rtq criterion return the read error as a transport error. -/
theorem C7_body_read_failure_witness :
    c7wreq.body.data = .error "oops" ∧
    rtq.bodyStringMatch "x" c7wreq = .error (.goError "oops") :=
  ⟨rfl, C7_body_read_failure.1 "x" c7wreq "oops" rfl⟩

/-- Claim C3 counterexample, both halves.  Sequential half: one intercept
(N = 1) against a transport holding exactly one response entry fails
outright when the request matches no queue, leaving the entry unconsumed —
so N intercepts against N entries do not always all succeed.  Concurrent
half, rtqueue variant: that variant has no lock, so its pop is the
unsynchronised statement pair `popRead` / `popWrite`; in the legal
interleaving read-read-write-write, both goroutines run `find` and
`popRead` against the pre-write state (first and second conjuncts of that
half), so both intercepts obtain the same first producer — the value a
serialised second pop would have returned (third conjunct) differs from it
(last conjunct) and is never handed out, even though after both writes the
FIFO has drained to empty (fourth conjunct).  The same entry is consumed
twice and another entry is consumed zero times. -/
theorem C3_counterexample :
    rtq.listTotal c3m.queues = 1 ∧
    (rtq.runDequeues c3m [c3req]).1 = [.error (.goError "mock is not registered")] ∧
    rtq.listTotal (rtq.runDequeues c3m [c3req]).2.queues = 1 ∧
    rtqueue.find c3ql c3raceReq = .ok (some 0, c3raceReq, c3ql) ∧
    rtqueue.popRead c3ql 0 = c3race1 ∧
    rtqueue.popRead (rtqueue.popWrite c3ql 0) 0 = c3race2 ∧
    ((rtqueue.popWrite (rtqueue.popWrite c3ql 0) 0).getD 0
      rtqueue.emptyQueue).roundTrips = [] ∧
    c3race1 ≠ c3race2 :=
  ⟨rfl, rfl, rfl, rfl, rfl, rfl, rfl,
   fun h => absurd (congrArg (fun f => f c3raceReq) h) (by decide)⟩

/-- Claim C3 as amended, positive half (the rtq variant): its mutex
serialises concurrent intercepts into some arrival order; for every such
order, if every request satisfies every queue's criteria and the transport
holds exactly N = reqs.length entries, then all N dequeues succeed, the
handed-out producers are exactly the configured entries in queue order
(each consumed once, none left over), and the audit log ends with exactly N
records, all matched, whose sequence numbers are pairwise distinct.  The
rtqueue variant has no mutex and fails the concurrent exactly-once
property; the interleaving exhibited in the counterexample serves one entry
twice and another never. -/
theorem C3_concurrent_drain (m : rtq.MockTransport) (reqs : List Request)
    (hall : ∀ req ∈ reqs, ∀ q ∈ m.queues, rtq.queueMatch q req = .ok (true, req))
    (htot : rtq.listTotal m.queues = reqs.length)
    (hlog : m.requestLogs = []) :
    (∀ x ∈ (rtq.runDequeues m reqs).1, ∃ fn r', x = .ok (fn, r')) ∧
    rtq.okFns (rtq.runDequeues m reqs).1 = rtq.joinFns m.queues ∧
    rtq.listTotal (rtq.runDequeues m reqs).2.queues = 0 ∧
    (rtq.runDequeues m reqs).2.requestLogs.length = reqs.length ∧
    (∀ l ∈ (rtq.runDequeues m reqs).2.requestLogs, l.matched = true) ∧
    (rtq.seqNumbers (rtq.runDequeues m reqs).2).Nodup := by
  obtain ⟨h1, h2, h3, h4, h5⟩ := rtq.runDequeues_drain reqs m hall htot
  refine ⟨h1, h2, h3, ?_, ?_, ?_⟩
  · rw [h4, hlog]
    simp
  · intro l hl
    rcases h5 l hl with hmem | hmat
    · rw [hlog] at hmem
      exact absurd hmem (List.not_mem_nil l)
    · exact hmat
  · exact (List.nodup_range _).map (fun a b => by omega)

/-- Witness for the amended C3: a two-entry transport drained by two
matching requests hands out both producers, empties every queue and logs
two matched records. -/
theorem C3_concurrent_drain_witness :
    rtq.listTotal c3wm.queues = c3wreqs.length ∧
    rtq.okFns (rtq.runDequeues c3wm c3wreqs).1 = rtq.joinFns c3wm.queues ∧
    rtq.listTotal (rtq.runDequeues c3wm c3wreqs).2.queues = 0 ∧
    (rtq.runDequeues c3wm c3wreqs).2.requestLogs.length = c3wreqs.length :=
  ⟨rfl,
   (C3_concurrent_drain c3wm c3wreqs (by decide) rfl rfl).2.1,
   (C3_concurrent_drain c3wm c3wreqs (by decide) rfl rfl).2.2.1,
   (C3_concurrent_drain c3wm c3wreqs (by decide) rfl rfl).2.2.2.1⟩

/-- Claim C9: every chainable builder of the rtq variant extends its
receiver by exactly one entry (two for the method-and-path helpers) at the
tail: the receiver's criteria and producer lists reappear unchanged at
every existing index of the result.  Together with the Go value receiver —
`append` never writes below the receiver's length — this is the observable
content of the copy-on-write builder semantics: the receiver value itself
stays unchanged. -/
theorem C9_builders (q : rtq.RoundTripQueue) (key value p s jb : String)
    (f : rtq.MatchFunc) (sc : Int) (res : Response) (fn : RoundTripFn) :
    ((q.Header key value).matchFuncs.take q.matchFuncs.length = q.matchFuncs ∧
      (q.Header key value).roundTripFuncs = q.roundTripFuncs) ∧
    ((q.Get p).matchFuncs.take q.matchFuncs.length = q.matchFuncs ∧
      (q.Get p).roundTripFuncs = q.roundTripFuncs) ∧
    ((q.Post p).matchFuncs.take q.matchFuncs.length = q.matchFuncs ∧
      (q.Post p).roundTripFuncs = q.roundTripFuncs) ∧
    ((q.Put p).matchFuncs.take q.matchFuncs.length = q.matchFuncs ∧
      (q.Put p).roundTripFuncs = q.roundTripFuncs) ∧
    ((q.Delete p).matchFuncs.take q.matchFuncs.length = q.matchFuncs ∧
      (q.Delete p).roundTripFuncs = q.roundTripFuncs) ∧
    ((q.Query key value).matchFuncs.take q.matchFuncs.length = q.matchFuncs ∧
      (q.Query key value).roundTripFuncs = q.roundTripFuncs) ∧
    ((q.BodyString s).matchFuncs.take q.matchFuncs.length = q.matchFuncs ∧
      (q.BodyString s).roundTripFuncs = q.roundTripFuncs) ∧
    ((q.Matcher f).matchFuncs.take q.matchFuncs.length = q.matchFuncs ∧
      (q.Matcher f).roundTripFuncs = q.roundTripFuncs) ∧
    ((q.ResponseSimple sc s).roundTripFuncs.take q.roundTripFuncs.length =
        q.roundTripFuncs ∧
      (q.ResponseSimple sc s).matchFuncs = q.matchFuncs) ∧
    ((q.ResponseJSON sc jb).roundTripFuncs.take q.roundTripFuncs.length =
        q.roundTripFuncs ∧
      (q.ResponseJSON sc jb).matchFuncs = q.matchFuncs) ∧
    ((q.Response res).roundTripFuncs.take q.roundTripFuncs.length =
        q.roundTripFuncs ∧
      (q.Response res).matchFuncs = q.matchFuncs) ∧
    ((q.ResponseFunc fn).roundTripFuncs.take q.roundTripFuncs.length =
        q.roundTripFuncs ∧
      (q.ResponseFunc fn).matchFuncs = q.matchFuncs) := by
  refine ⟨⟨?_, rfl⟩, ⟨?_, rfl⟩, ⟨?_, rfl⟩, ⟨?_, rfl⟩, ⟨?_, rfl⟩, ⟨?_, rfl⟩, ⟨?_, rfl⟩,
    ⟨?_, rfl⟩, ⟨?_, rfl⟩, ⟨?_, rfl⟩, ⟨?_, rfl⟩, ⟨?_, rfl⟩⟩ <;>
    simp [rtq.RoundTripQueue.Header, rtq.RoundTripQueue.Get, rtq.RoundTripQueue.Post,
      rtq.RoundTripQueue.Put, rtq.RoundTripQueue.Delete, rtq.RoundTripQueue.Query,
      rtq.RoundTripQueue.BodyString, rtq.RoundTripQueue.Matcher,
      rtq.RoundTripQueue.ResponseSimple, rtq.RoundTripQueue.ResponseJSON,
      rtq.RoundTripQueue.Response, rtq.RoundTripQueue.ResponseFunc,
      rtq.RoundTripQueue.method, rtq.RoundTripQueue.path, List.append_assoc]
